import Mathlib

/-!
Ex-8: competition / voting platform.

A shallow embedding of the server side of the repository:

* `server/routes/competitions.js` : the `GET /`, `POST /`, `PUT /:id` and `DELETE /:id`
  handlers,
* `server/routes/auth.js`         : `generateToken`, `POST /register`, `POST /login`,
  `GET /me`,
* `server/models/Entry.js`        : the entry schema and its `pre('save')` hook,
* `server/models/Competition.js`  : the competition schema,
* `server/server.js`              : the environment bootstrap and the global error handler.

Conventions.

* A collection is a `List` of documents in insertion order.
* Every awaited persistence call may reject.  The handlers wrap their bodies in
  `try / catch`, so a rejection is part of their behaviour; it is driven by a
  `Faults` record that says, per kind of call, whether the call throws.
* Every handler returns an `Outcome`: the JSON response, the collection after
  the request, and the list of persistence calls it issued, in order.
* `Date`s are milliseconds since the epoch, `Number`s are integers.
-/

namespace Ex8

/-! ## Persistence boundary -/

/-- An `ObjectId`, identified with its hex string (`toString()`, `user.id`). -/
abbrev ObjectId := String

/-- The error object a rejected persistence call throws. -/
structure DbError where
  name : String
  code : Option Nat
  message : String
deriving DecidableEq, Repr

/-- Which awaited persistence calls of one request reject, and with what:
`read` drives `findOne` / `findById`, `write` drives `create` /
`findByIdAndUpdate`, `remove` drives `findByIdAndDelete`. -/
structure Faults where
  read : Option DbError
  write : Option DbError
  remove : Option DbError
deriving DecidableEq, Repr

/-- The schedule in which every persistence call completes. -/
def noFaults : Faults := ⟨none, none, none⟩

/-- The persistence calls the handlers issue. -/
inductive DbCall where
  | findOne
  | findById
  | create
  | findByIdAndUpdate
  | findByIdAndDelete
  | find
deriving DecidableEq, Repr

/-- What one request leaves behind: response, collection, calls issued. -/
structure Outcome (σ ρ : Type) where
  response : ρ
  store : σ
  calls : List DbCall
deriving DecidableEq, Repr

/-- The error of Mongo's unique index (the `_id` index is always unique). -/
def duplicateKey : DbError := ⟨"MongoServerError", some 11000, "E11000 duplicate key error"⟩

/-- Remove the first document that satisfies `p` (a `findOneAndDelete`). -/
def removeFirst {α : Type} (p : α → Bool) : List α → List α
  | [] => []
  | a :: l => if p a then l else a :: removeFirst p l

/-- JavaScript `String.prototype.trim`, on the whitespace `Char.isWhitespace` knows. -/
def jsTrim (s : String) : String :=
  ⟨((s.data.dropWhile Char.isWhitespace).reverse.dropWhile Char.isWhitespace).reverse⟩

/-! ## `models/Competition.js` -/

/-- A stored competition document (`competitionSchema`). -/
structure Competition where
  id : ObjectId
  title : String
  description : String
  category : String
  creator : ObjectId
  startDate : Int
  endDate : Int
  maxEntries : Int
  entryFee : Int
  prizePool : Int
  status : String
  createdAt : Int
deriving DecidableEq, Repr

/-- A request body for the competition routes after schema casting: every
schema path may be present or absent (paths outside the schema are dropped by
mongoose's strict mode). -/
structure CompetitionBody where
  title : Option String
  description : Option String
  category : Option String
  creator : Option ObjectId
  startDate : Option Int
  endDate : Option Int
  maxEntries : Option Int
  entryFee : Option Int
  prizePool : Option Int
  status : Option String
  createdAt : Option Int
deriving DecidableEq, Repr

/-- The `enum` of `category`. -/
def categoryEnum : List String :=
  ["music", "art", "writing", "photography", "technology", "other"]

/-- The `enum` of `status`. -/
def statusEnum : List String := ["upcoming", "active", "completed", "cancelled"]

/-- A check on a path that may be absent from the update. -/
def onPath {α : Type} (v : Option α) (p : α → Bool) : Bool :=
  match v with
  | none => true
  | some a => p a

/-- The schema validators that `runValidators: true` runs on the paths an
update sets: `required`, `maxlength` and `enum`; `title` is trimmed first. -/
def updateValidators (b : CompetitionBody) : Bool :=
  onPath b.title (fun t => (jsTrim t).length != 0 && decide ((jsTrim t).length ≤ 100))
  && onPath b.description (fun d => d.length != 0 && decide (d.length ≤ 500))
  && onPath b.category (fun c => c.length != 0 && categoryEnum.contains c)
  && onPath b.status (fun s => statusEnum.contains s)

/-- The document after `$set`ting every path present in the body. -/
def applyUpdate (c : Competition) (b : CompetitionBody) : Competition :=
  { id := c.id
    title := (b.title.map jsTrim).getD c.title
    description := b.description.getD c.description
    category := b.category.getD c.category
    creator := b.creator.getD c.creator
    startDate := b.startDate.getD c.startDate
    endDate := b.endDate.getD c.endDate
    maxEntries := b.maxEntries.getD c.maxEntries
    entryFee := b.entryFee.getD c.entryFee
    prizePool := b.prizePool.getD c.prizePool
    status := b.status.getD c.status
    createdAt := b.createdAt.getD c.createdAt }

/-- Replace the first document whose `_id` is `id` by its update. -/
def updateFirst (id : ObjectId) (b : CompetitionBody) : List Competition → List Competition
  | [] => []
  | c :: l => if c.id == id then applyUpdate c b :: l else c :: updateFirst id b l

/-- A hexadecimal digit. -/
def isHexDigit (c : Char) : Bool :=
  ('0' ≤ c && c ≤ '9') || ('a' ≤ c && c ≤ 'f') || ('A' ≤ c && c ≤ 'F')

/-- The strings mongoose casts to an `ObjectId`: 24 hexadecimal digits.  (The
legacy form of 12 bytes, which some driver versions also take, is left out.) -/
def isObjectId (s : String) : Bool :=
  s.length == 24 && s.data.all isHexDigit

/-- The error `findById` throws on a path parameter it cannot cast. -/
def castError : DbError := ⟨"CastError", none, "Cast to ObjectId failed"⟩

/-- `Competition.findById(id)`: the id is cast first, and a string that is no
`ObjectId` makes the call throw a `CastError` before anything is looked up. -/
def Competition.findById (f : Faults) (store : List Competition) (id : ObjectId) :
    Except DbError (Option Competition) :=
  if !isObjectId id then .error castError
  else
    match f.read with
    | some e => .error e
    | none => .ok (store.find? (fun c => c.id == id))

/-- `Competition.findByIdAndUpdate(id, body, { new: true, runValidators: true })`:
the updated document (or `null`) and the collection afterwards. -/
def Competition.findByIdAndUpdate (f : Faults) (store : List Competition) (id : ObjectId)
    (b : CompetitionBody) : Except DbError (Option Competition × List Competition) :=
  match f.write with
  | some e => .error e
  | none =>
    if updateValidators b then
      .ok ((store.find? (fun c => c.id == id)).map (fun c => applyUpdate c b),
           updateFirst id b store)
    else .error ⟨"ValidationError", none, "Validation failed"⟩

/-- `Competition.findByIdAndDelete(id)`: the collection afterwards. -/
def Competition.findByIdAndDelete (f : Faults) (store : List Competition) (id : ObjectId) :
    Except DbError (List Competition) :=
  match f.remove with
  | some e => .error e
  | none => .ok (removeFirst (fun c => c.id == id) store)

/-! ## `routes/competitions.js` -/

/-- The identity `protect` attaches to the request (`req.user`). -/
structure AuthUser where
  id : String
  role : String
deriving DecidableEq, Repr

/-- A JSON response of the competition routes. -/
structure CompResponse where
  status : Nat
  success : Bool
  message : Option String
  data : Option Competition
deriving DecidableEq, Repr

namespace Competitions

/-- The `catch` branch shared by the handlers. -/
def serverError : CompResponse := ⟨500, false, some "Server error", none⟩

/-- The 404 branch shared by the handlers. -/
def notFound : CompResponse := ⟨404, false, some "Competition not found", none⟩

/-- The ownership test of `PUT` and `DELETE`:
`competition.creator.toString() !== req.user.id && req.user.role !== 'admin'`. -/
def notAuthorized (c : Competition) (user : AuthUser) : Bool :=
  c.creator != user.id && user.role != "admin"

/-- Handler of `router.put('/:id', protect, ...)`, run with `req.user = user`. -/
def routerPut (f : Faults) (store : List Competition) (id : ObjectId) (user : AuthUser)
    (body : CompetitionBody) : Outcome (List Competition) CompResponse :=
  match Competition.findById f store id with
  | .error _ => ⟨serverError, store, [.findById]⟩
  | .ok none => ⟨notFound, store, [.findById]⟩
  | .ok (some c) =>
    if notAuthorized c user then
      ⟨⟨403, false, some "Not authorized to update this competition", none⟩, store, [.findById]⟩
    else
      match Competition.findByIdAndUpdate f store id body with
      | .error _ => ⟨serverError, store, [.findById, .findByIdAndUpdate]⟩
      | .ok (doc, store') => ⟨⟨200, true, none, doc⟩, store', [.findById, .findByIdAndUpdate]⟩

/-- Handler of `router.delete('/:id', protect, ...)`, run with `req.user = user`. -/
def routerDelete (f : Faults) (store : List Competition) (id : ObjectId) (user : AuthUser) :
    Outcome (List Competition) CompResponse :=
  match Competition.findById f store id with
  | .error _ => ⟨serverError, store, [.findById]⟩
  | .ok none => ⟨notFound, store, [.findById]⟩
  | .ok (some c) =>
    if notAuthorized c user then
      ⟨⟨403, false, some "Not authorized to delete this competition", none⟩, store, [.findById]⟩
    else
      match Competition.findByIdAndDelete f store id with
      | .error _ => ⟨serverError, store, [.findById, .findByIdAndDelete]⟩
      | .ok store' =>
        ⟨⟨200, true, some "Competition deleted successfully", none⟩, store',
          [.findById, .findByIdAndDelete]⟩

/-- The two mutating requests on `/:id`. -/
inductive Mutation where
  | update (body : CompetitionBody)
  | remove
deriving DecidableEq, Repr

/-- The router's dispatch of a mutating request: `PUT /:id` or `DELETE /:id`. -/
def mutate (f : Faults) (store : List Competition) (id : ObjectId) (user : AuthUser) :
    Mutation → Outcome (List Competition) CompResponse
  | .update body => routerPut f store id user body
  | .remove => routerDelete f store id user

/-- The mutating persistence call a request would issue. -/
def Mutation.call : Mutation → DbCall
  | .update _ => .findByIdAndUpdate
  | .remove => .findByIdAndDelete

end Competitions

/-! ## Identities

`models/User.js` is not among the sources; `routes/auth.js` uses it through
`User.findOne`, `User.create`, `User.findByIdAndDelete` and `user.matchPassword`. -/

/-- Modelled from the spec: the identity document of the missing `models/User.js`,
`{id, username (unique), email (unique), passwordHash, role}`; `password` holds
the stored hash. -/
structure User where
  id : ObjectId
  username : String
  email : String
  password : String
  role : String
deriving DecidableEq, Repr

/-- The third-party functions the auth routes call: express-validator's
`isEmail`, the password hash and its comparison, the HS256 signature of
jsonwebtoken and the timespan reader behind its `expiresIn` (seconds, or
`none` when the string is no timespan). -/
structure Lib (κ : Type) where
  isEmail : String → Bool
  hash : String → String
  compare : String → String → Bool
  hmac : String → κ → String
  span : String → Option Int

/-- Modelled from the spec: `User.findOne(filter)` of the missing `models/User.js`,
the first stored identity that satisfies the filter. -/
def User.findOne (f : Faults) (store : List User) (filter : User → Bool) :
    Except DbError (Option User) :=
  match f.read with
  | some e => .error e
  | none => .ok (store.find? filter)

/-- Modelled from the spec: `User.create({ username, email, password })` of the
missing `models/User.js`: the identity is persisted with a one-way hash of the
password and the role of a plain member; `newId` is the `_id` the driver
allocates, and an `_id` already in the collection is a duplicate-key error. -/
def User.create {κ : Type} (L : Lib κ) (f : Faults) (newId : ObjectId) (store : List User)
    (username email password : String) : Except DbError (User × List User) :=
  match f.write with
  | some e => .error e
  | none =>
    if store.any (fun u => u.id == newId) then .error duplicateKey
    else
      let user : User := ⟨newId, username, email, L.hash password, "member"⟩
      .ok (user, store ++ [user])

/-- Modelled from the spec: `User.findByIdAndDelete(id)` of the missing
`models/User.js`. -/
def User.findByIdAndDelete (f : Faults) (store : List User) (id : ObjectId) :
    Except DbError (List User) :=
  match f.remove with
  | some e => .error e
  | none => .ok (removeFirst (fun u => u.id == id) store)

/-- Modelled from the spec: `user.matchPassword(entered)` of the missing
`models/User.js`, the comparison of the entered password with the stored hash. -/
def User.matchPassword {κ : Type} (L : Lib κ) (user : User) (entered : String) : Bool :=
  L.compare entered user.password

/-! ## `routes/auth.js` : tokens -/

/-- The part of `process.env` the server reads. -/
structure Env where
  JWT_SECRET : Option String
  JWT_EXPIRE : Option String
  NODE_ENV : Option String
deriving DecidableEq, Repr

/-- JavaScript truthiness of an environment variable: set and not empty. -/
def truthy (v : Option String) : Bool :=
  match v with
  | none => false
  | some s => s != ""

/-- What a token signs: the header's algorithm, the payload
`{ id, timestamp }` of `generateToken`, and the `iat` / `exp` seconds that
`jwt.sign` adds. -/
structure Claims where
  alg : String
  id : ObjectId
  timestamp : Nat
  iat : Int
  exp : Int
deriving DecidableEq, Repr

/-- A signed token. -/
structure Token where
  claims : Claims
  signature : String
deriving DecidableEq, Repr

/-- The message of the error `jwt.sign` throws on an `expiresIn` it cannot read. -/
def badExpiresIn : String :=
  "expiresIn should be a number of seconds or string representing a timespan"

/-- `jwt.sign(payload, secret, { expiresIn, algorithm: 'HS256' })` at clock
`now` (milliseconds): `iat` is the clock in whole seconds, `exp` is `iat` plus
the timespan. -/
def jwtSign (L : Lib Claims) (id : ObjectId) (timestamp : Nat) (secret expiresIn : String)
    (now : Nat) : Except String Token :=
  match L.span expiresIn with
  | none => .error badExpiresIn
  | some s =>
    let claims : Claims := ⟨"HS256", id, timestamp, (now / 1000 : Nat), ((now / 1000 : Nat) : Int) + s⟩
    .ok ⟨claims, L.hmac secret claims⟩

/-- `generateToken(userId)`: throws when `JWT_SECRET` is falsy or `jwt.sign`
throws; the expiry is `process.env.JWT_EXPIRE || '30d'`. -/
def generateToken (L : Lib Claims) (env : Env) (now : Nat) (userId : ObjectId) :
    Except String Token :=
  if !truthy env.JWT_SECRET then .error "JWT_SECRET is not defined in environment variables"
  else
    jwtSign L userId now (env.JWT_SECRET.getD "")
      (if truthy env.JWT_EXPIRE then env.JWT_EXPIRE.getD "" else "30d") now

/-- The ways a token fails to verify. -/
inductive TokenError where
  | TokenInvalid
  | TokenExpired
deriving DecidableEq, Repr

/-- Modelled from the spec: `verifyToken(token) → Identity | fails(TokenInvalid |
TokenExpired)` of the missing `middleware/auth.js`: pure and stateless; the
signature is checked under the secret, then the expiry against the clock in
whole seconds; the result is the subject id. -/
def verifyToken (L : Lib Claims) (secret : String) (now : Nat) (t : Token) :
    Except TokenError ObjectId :=
  if t.claims.alg != "HS256" || t.signature != L.hmac secret t.claims then .error .TokenInvalid
  else if t.claims.exp ≤ ((now / 1000 : Nat) : Int) then .error .TokenExpired
  else .ok t.claims.id

/-! ## `routes/auth.js` : register and login -/

/-- One element of express-validator's `errors.array()`. -/
structure FieldError where
  param : String
  msg : String
deriving DecidableEq, Repr

/-- The `user` object of a success response. -/
structure UserView where
  id : ObjectId
  username : String
  email : String
  role : String
deriving DecidableEq, Repr

/-- A JSON response of the auth routes; a key the handler does not write is `none`. -/
structure AuthResponse where
  status : Nat
  success : Bool
  message : Option String
  errors : Option (List FieldError)
  error : Option String
  details : Option String
  token : Option Token
  user : Option UserView
deriving DecidableEq, Repr

/-- The body of `POST /register`; an absent field is read as the empty string,
as the validators do. -/
structure RegisterBody where
  username : String
  email : String
  password : String
deriving DecidableEq, Repr

/-- The body of `POST /login`; `password` may be absent (`exists()`). -/
structure LoginBody where
  email : String
  password : Option String
deriving DecidableEq, Repr

namespace Auth

/-- The validation chain of `POST /register`, as `errors.array()`; `isLength`
measures a string in code points, as `String.length` does. -/
def registerValidation {κ : Type} (L : Lib κ) (b : RegisterBody) : List FieldError :=
  (if 3 ≤ b.username.length then []
    else [⟨"username", "Username must be at least 3 characters long"⟩])
  ++ (if L.isEmail b.email then [] else [⟨"email", "Please provide a valid email"⟩])
  ++ (if 6 ≤ b.password.length then []
    else [⟨"password", "Password must be at least 6 characters long"⟩])

/-- The validation chain of `POST /login`, as `errors.array()`. -/
def loginValidation {κ : Type} (L : Lib κ) (b : LoginBody) : List FieldError :=
  (if L.isEmail b.email then [] else [⟨"email", "Please provide a valid email"⟩])
  ++ (if b.password.isSome then [] else [⟨"password", "Please provide a password"⟩])

/-- The 400 response carrying the field errors. -/
def validationFailed (errors : List FieldError) : AuthResponse :=
  ⟨400, false, none, some errors, none, none, none, none⟩

/-- The 400 response of the duplicate check. -/
def userExists : AuthResponse :=
  ⟨400, false, some "User already exists with this email or username", none, none, none, none,
    none⟩

/-- The 500 response of the rollback branch of register. -/
def authSetupFailed (msg : String) : AuthResponse :=
  ⟨500, false, some "Authentication setup failed", none, some msg,
    some "JWT token could not be generated", none, none⟩

/-- The 500 response of the outer `catch` of register. -/
def registerServerError (msg : String) : AuthResponse :=
  ⟨500, false, some "Server error during registration", none, some msg, none, none, none⟩

/-- The 401 response of login. -/
def invalidCredentials : AuthResponse :=
  ⟨401, false, some "Invalid credentials", none, none, none, none, none⟩

/-- The success body: the token and the four public fields of the identity. -/
def success (status : Nat) (token : Token) (user : User) : AuthResponse :=
  ⟨status, true, none, none, none, none, some token,
    some ⟨user.id, user.username, user.email, user.role⟩⟩

/-- Handler of `router.post('/register', [...], ...)` at clock `now`, with
`newId` the `_id` allocated to the new identity. -/
def routerPostRegister (L : Lib Claims) (env : Env) (f : Faults) (now : Nat) (newId : ObjectId)
    (store : List User) (body : RegisterBody) : Outcome (List User) AuthResponse :=
  if !(registerValidation L body).isEmpty then
    ⟨validationFailed (registerValidation L body), store, []⟩
  else
    match User.findOne f store
        (fun u => u.email == body.email || u.username == body.username) with
    | .error e => ⟨registerServerError e.message, store, [.findOne]⟩
    | .ok (some _) => ⟨userExists, store, [.findOne]⟩
    | .ok none =>
      match User.create L f newId store body.username body.email body.password with
      | .error e => ⟨registerServerError e.message, store, [.findOne, .create]⟩
      | .ok (user, store1) =>
        match generateToken L env now user.id with
        | .error msg =>
          match User.findByIdAndDelete f store1 user.id with
          | .error e =>
            ⟨registerServerError e.message, store1, [.findOne, .create, .findByIdAndDelete]⟩
          | .ok store2 => ⟨authSetupFailed msg, store2, [.findOne, .create, .findByIdAndDelete]⟩
        | .ok token => ⟨success 201 token user, store1, [.findOne, .create]⟩

/-- Handler of `router.post('/login', [...], ...)` at clock `now`. -/
def routerPostLogin (L : Lib Claims) (env : Env) (f : Faults) (now : Nat)
    (store : List User) (body : LoginBody) : Outcome (List User) AuthResponse :=
  if !(loginValidation L body).isEmpty then
    ⟨validationFailed (loginValidation L body), store, []⟩
  else
    match User.findOne f store (fun u => u.email == body.email) with
    | .error _ =>
      ⟨⟨500, false, some "Server error during login", none, none, none, none, none⟩, store,
        [.findOne]⟩
    | .ok none => ⟨invalidCredentials, store, [.findOne]⟩
    | .ok (some user) =>
      if !User.matchPassword L user (body.password.getD "") then
        ⟨invalidCredentials, store, [.findOne]⟩
      else
        match generateToken L env now user.id with
        | .error msg =>
          ⟨⟨500, false, some "Authentication failed", none, some msg, none, none, none⟩, store,
            [.findOne]⟩
        | .ok token => ⟨success 200 token user, store, [.findOne]⟩

end Auth

/-! ## `models/Entry.js` -/

/-- One element of `votes`: `{ voter, votedAt }`; `voter` is not a required path. -/
structure Vote where
  voter : Option ObjectId
  votedAt : Int
deriving DecidableEq, Repr

/-- An entry document (`entrySchema`), with its paths already cast. -/
structure Entry where
  id : ObjectId
  title : String
  description : String
  mediaUrl : String
  competition : ObjectId
  contestant : ObjectId
  votes : List Vote
  totalVotes : Int
  isApproved : Bool
  submittedAt : Int
deriving DecidableEq, Repr

/-- The hook `entrySchema.pre('save', ...)`: `this.totalVotes = this.votes.length`. -/
def Entry.preSave (e : Entry) : Entry :=
  { e with totalVotes := (e.votes.length : Int) }

/-- The validators of `entrySchema` that a document of this type can fail:
the `required` string paths must not be empty.  No validator reads `votes`. -/
def Entry.validate (e : Entry) : Bool :=
  e.title.length != 0 && e.description.length != 0 && e.mediaUrl.length != 0

/-- Write a document by `_id`: replace the stored one, or insert at the end. -/
def Entry.upsert (e : Entry) : List Entry → List Entry
  | [] => [e]
  | x :: l => if x.id == e.id then e :: l else x :: Entry.upsert e l

/-- The call `entry.save()`: validation, then the pre-save hook, then the write. -/
def Entry.save (f : Faults) (store : List Entry) (e : Entry) : Except DbError (List Entry) :=
  match f.write with
  | some err => .error err
  | none =>
    if Entry.validate e then .ok (Entry.upsert (Entry.preSave e) store)
    else .error ⟨"ValidationError", none, "Validation failed"⟩

/-- A run of `save` calls, one after the other; a rejected call leaves the
collection as it was. -/
def Entry.saveAll : List (Faults × Entry) → List Entry → List Entry
  | [], store => store
  | (f, e) :: rest, store =>
    match Entry.save f store e with
    | .ok store' => Entry.saveAll rest store'
    | .error _ => Entry.saveAll rest store

/-- The number of vote records of an entry that name `v` as the voter. -/
def Entry.votesBy (e : Entry) (v : ObjectId) : Nat :=
  e.votes.countP (fun x => x.voter == some v)

/-! ## Runs of requests -/

/-- One `POST /register` request together with its run-time circumstances. -/
structure RegisterRun where
  env : Env
  faults : Faults
  now : Nat
  newId : ObjectId
  body : RegisterBody

/-- Registrations served one after the other. -/
def Auth.registerAll (L : Lib Claims) : List RegisterRun → List User → List User
  | [], store => store
  | r :: rest, store =>
    Auth.registerAll L rest (Auth.routerPostRegister L r.env r.faults r.now r.newId store r.body).store

/-- No two stored identities share a username or an email. -/
def UniqueIdentities (store : List User) : Prop :=
  store.Pairwise (fun a b => a.username ≠ b.username ∧ a.email ≠ b.email)

/-! ## Concrete data used by the worked examples -/

/-- An identity: the creator of the sample competitions. -/
def u1 : ObjectId := "507f1f77bcf86cd7994390a1"

/-- An identity: a plain member. -/
def u2 : ObjectId := "507f1f77bcf86cd7994390a2"

/-- An identity that owns nothing. -/
def u5 : ObjectId := "507f1f77bcf86cd7994390a5"

/-- The identity of `bob`. -/
def u7 : ObjectId := "507f1f77bcf86cd7994390a7"

/-- The `_id` allocated to `alice`. -/
def u9 : ObjectId := "507f1f77bcf86cd7994390a9"

/-- The `_id` allocated to a second registration. -/
def u10 : ObjectId := "507f1f77bcf86cd7994390aa"

/-- The id of the sample competition. -/
def c1 : ObjectId := "507f1f77bcf86cd7994390c1"

/-- The id of the completed competition. -/
def c2 : ObjectId := "507f1f77bcf86cd7994390c2"

/-- The id of its twin. -/
def c3 : ObjectId := "507f1f77bcf86cd7994390c3"

/-- An id no stored competition has; also the `_id` allocated to a new one. -/
def c4 : ObjectId := "507f1f77bcf86cd7994390c4"

/-- The id of the sample entry. -/
def e1 : ObjectId := "507f1f77bcf86cd7994390e1"

/-- A voter. -/
def v1 : ObjectId := "507f1f77bcf86cd7994390b1"

/-- Another voter. -/
def v2 : ObjectId := "507f1f77bcf86cd7994390b2"

/-- A toy instance of the third-party functions: an e-mail has an `@`, the
hash prefixes `h$`, the signature pairs the secret with the subject. -/
def demoLib : Lib Claims :=
  { isEmail := fun s => s.data.contains '@'
    hash := fun p => "h$" ++ p
    compare := fun p h => h == "h$" ++ p
    hmac := fun secret c => secret ++ "/" ++ c.id
    span := fun s => if s == "30d" then some 2592000 else if s == "1h" then some 3600 else none }

/-- An environment with a secret and no `JWT_EXPIRE`. -/
def demoEnv : Env := ⟨some "s3cret", none, none⟩

/-- An environment without a secret. -/
def bareEnv : Env := ⟨none, none, none⟩

/-- A competition created by `u1`. -/
def demoCompetition : Competition :=
  ⟨c1, "Song contest", "Sing", "music", u1, 1000, 2000, 100, 0, 0, "upcoming", 500⟩

/-- The body with no path set. -/
def emptyBody : CompetitionBody :=
  ⟨none, none, none, none, none, none, none, none, none, none, none⟩

/-- The identity registered by `alice`. -/
def aliceBody : RegisterBody := ⟨"alice", "alice@x.com", "secret1"⟩

/-- A stored identity. -/
def bob : User := ⟨u7, "bob", "bob@x.com", "h$hunter22", "member"⟩

/-- An entry with one vote by `v1`. -/
def demoEntry : Entry :=
  ⟨e1, "Song", "A song", "http://m/1", c1, u1, [⟨some v1, 10⟩], 1, false, 5⟩

/-! ## `routes/competitions.js` : create and list -/

/-- A check on a path the schema requires: an absent path fails. -/
def onRequired {α : Type} (v : Option α) (p : α → Bool) : Bool :=
  match v with
  | none => false
  | some a => p a

/-- The validators of `competitionSchema` on a new document: the `required`
paths must be present (strings not empty), `title` and `description` respect
their `maxlength`, `category` and `status` their `enum`.  No validator
compares `startDate` with `endDate`. -/
def createValidators (b : CompetitionBody) : Bool :=
  onRequired b.title (fun t => (jsTrim t).length != 0 && decide ((jsTrim t).length ≤ 100))
  && onRequired b.description (fun d => d.length != 0 && decide (d.length ≤ 500))
  && onRequired b.category (fun c => c.length != 0 && categoryEnum.contains c)
  && b.creator.isSome && b.startDate.isSome && b.endDate.isSome
  && onPath b.status (fun s => statusEnum.contains s)

/-- The document `Competition.create(body)` builds at clock `now`: the paths
of the body, and the schema defaults for the absent ones (`maxEntries` 100,
`entryFee` 0, `prizePool` 0, `status` `upcoming`, `createdAt` the clock). -/
def newCompetition (now : Nat) (newId : ObjectId) (b : CompetitionBody) : Competition :=
  { id := newId
    title := (b.title.map jsTrim).getD ""
    description := b.description.getD ""
    category := b.category.getD ""
    creator := b.creator.getD ""
    startDate := b.startDate.getD 0
    endDate := b.endDate.getD 0
    maxEntries := b.maxEntries.getD 100
    entryFee := b.entryFee.getD 0
    prizePool := b.prizePool.getD 0
    status := b.status.getD "upcoming"
    createdAt := b.createdAt.getD (now : Int) }

/-- `Competition.create(body)`: validation, then the insert under the
allocated `_id`; the created document and the collection afterwards. -/
def Competition.create (f : Faults) (now : Nat) (newId : ObjectId) (store : List Competition)
    (b : CompetitionBody) : Except DbError (Competition × List Competition) :=
  match f.write with
  | some e => .error e
  | none =>
    if !createValidators b then .error ⟨"ValidationError", none, "Validation failed"⟩
    else if store.any (fun c => c.id == newId) then .error duplicateKey
    else .ok (newCompetition now newId b, store ++ [newCompetition now newId b])

/-- What `populate('creator', 'username')` puts in place of `creator`. -/
structure CreatorView where
  id : ObjectId
  username : String
deriving DecidableEq, Repr

/-- A competition of the list response: the stored document, and the
populated creator (`null` when no identity has that id). -/
structure PopulatedCompetition where
  doc : Competition
  creator : Option CreatorView
deriving DecidableEq, Repr

/-- The effect of `populate('creator', 'username')` on one document. -/
def populateCreator (users : List User) (c : Competition) : PopulatedCompetition :=
  ⟨c, (users.find? (fun u => u.id == c.creator)).map (fun u => ⟨u.id, u.username⟩)⟩

/-- The order `sort({ createdAt: -1 })` asks for. -/
def newerFirst (a b : Competition) : Prop := b.createdAt ≤ a.createdAt

instance newerFirstDecidable : DecidableRel newerFirst :=
  fun a b => inferInstanceAs (Decidable (b.createdAt ≤ a.createdAt))

instance newerFirstTotal : IsTotal Competition newerFirst :=
  ⟨fun a b => le_total b.createdAt a.createdAt⟩

instance newerFirstTrans : IsTrans Competition newerFirst :=
  ⟨fun _ _ _ hab hbc => le_trans hbc hab⟩

/-- `sort({ createdAt: -1 })` as the database runs it on the scan of the
collection: the documents are read in insertion order and sorted on the single
key `createdAt`, descending, by a stable sort, so documents with equal keys
stay in the order of the scan. -/
def sortNewerFirst (l : List Competition) : List Competition := l.insertionSort newerFirst

/-- `Competition.find().populate('creator', 'username').sort({ createdAt: -1 })`. -/
def Competition.find (f : Faults) (users : List User) (store : List Competition) :
    Except DbError (List PopulatedCompetition) :=
  match f.read with
  | some e => .error e
  | none => .ok ((sortNewerFirst store).map (populateCreator users))

/-- The JSON response of `GET /`. -/
structure ListResponse where
  status : Nat
  success : Bool
  message : Option String
  count : Option Nat
  data : Option (List PopulatedCompetition)
deriving DecidableEq, Repr

/-- Handler of `router.post('/', protect, ...)`, run with `req.user = user`, on
a `req.body` that is a JSON object: `req.body.creator = req.user.id`, then
`Competition.create(req.body)`.  (`routerPostAny` below is the handler on
every body `express.json()` lets through.) -/
def Competitions.routerPost (f : Faults) (now : Nat) (newId : ObjectId)
    (store : List Competition) (user : AuthUser) (body : CompetitionBody) :
    Outcome (List Competition) CompResponse :=
  match Competition.create f now newId store { body with creator := some user.id } with
  | .error _ => ⟨Competitions.serverError, store, [.create]⟩
  | .ok (doc, store') => ⟨⟨201, true, none, some doc⟩, store', [.create]⟩

/-- Handler of `router.get('/', ...)`. -/
def Competitions.routerGet (f : Faults) (users : List User) (store : List Competition) :
    Outcome (List Competition) ListResponse :=
  match Competition.find f users store with
  | .error _ => ⟨⟨500, false, some "Server error", none, none⟩, store, [.find]⟩
  | .ok competitions =>
    ⟨⟨200, true, none, some competitions.length, some competitions⟩, store, [.find]⟩

/-- The body of `POST /` as `express.json()` hands it over: a JSON object or a
JSON array (of objects, each cast against the schema). -/
inductive CreatePayload where
  | object (body : CompetitionBody)
  | array (elements : List CompetitionBody)
deriving DecidableEq, Repr

/-- What `data` holds in the response of `POST /`. -/
inductive CreatedData where
  | absent
  | one (doc : Competition)
  | many (docs : List Competition)
deriving DecidableEq, Repr

/-- The JSON response of `POST /` on any body. -/
structure CreateResponse where
  status : Nat
  success : Bool
  message : Option String
  data : CreatedData
deriving DecidableEq, Repr

/-- `Competition.create(docs)` on an array, from element `i` on: every element
is built and saved on its own under the `_id` allocated to it, `alloc i`; the
valid ones are inserted, and the first error, if any, is what the call
rejects with.  The result is the saved documents, the first error, and the
collection afterwards. -/
def Competition.createEach (f : Faults) (now : Nat) (alloc : Nat → ObjectId) :
    Nat → List CompetitionBody → List Competition →
      List Competition × Option DbError × List Competition
  | _, [], store => ([], none, store)
  | i, b :: rest, store =>
    match Competition.create f now (alloc i) store b with
    | .ok (doc, store') =>
      match Competition.createEach f now alloc (i + 1) rest store' with
      | (docs, err, s) => (doc :: docs, err, s)
    | .error e =>
      match Competition.createEach f now alloc (i + 1) rest store with
      | (docs, _, s) => (docs, some e, s)

/-- The handler of `POST /` on a `req.body` that is a JSON array:
`req.body.creator = req.user.id` sets a property on the array itself, which
`Competition.create` does not read, so the identity of the caller is unused
and every element is created with the paths it carries. -/
def Competitions.routerPostArray (f : Faults) (now : Nat) (alloc : Nat → ObjectId)
    (store : List Competition) (_user : AuthUser) (elements : List CompetitionBody) :
    Outcome (List Competition) CreateResponse :=
  match Competition.createEach f now alloc 0 elements store with
  | (docs, none, store') => ⟨⟨201, true, none, .many docs⟩, store', [.create]⟩
  | (_, some _, store') => ⟨⟨500, false, some "Server error", .absent⟩, store', [.create]⟩

/-- Handler of `router.post('/', protect, ...)`, run with `req.user = user`, on
every body: the object branch is `routerPost`, the array branch
`routerPostArray`; `alloc i` is the `_id` allocated to the `i`-th new document. -/
def Competitions.routerPostAny (f : Faults) (now : Nat) (alloc : Nat → ObjectId)
    (store : List Competition) (user : AuthUser) :
    CreatePayload → Outcome (List Competition) CreateResponse
  | .object body =>
    match Competitions.routerPost f now (alloc 0) store user body with
    | ⟨⟨status, success, message, some doc⟩, store', calls⟩ =>
      ⟨⟨status, success, message, .one doc⟩, store', calls⟩
    | ⟨⟨status, success, message, none⟩, store', calls⟩ =>
      ⟨⟨status, success, message, .absent⟩, store', calls⟩
  | .array elements => Competitions.routerPostArray f now alloc store user elements

/-! ## `routes/auth.js` : `GET /me` -/

/-- A request to `GET /me`: the bearer token of its `Authorization` header, if any. -/
structure MeRequest where
  authorization : Option Token
deriving DecidableEq, Repr

/-- The `user` object of the `GET /me` response. -/
structure MeUser where
  id : String
  username : String
  email : String
deriving DecidableEq, Repr

/-- The JSON response of `GET /me`. -/
structure MeResponse where
  status : Nat
  success : Bool
  message : Option String
  user : Option MeUser
deriving DecidableEq, Repr

/-- Handler of `router.get('/me', ...)`: no middleware runs before it and it
reads nothing of the request. -/
def Auth.routerGetMe (_req : MeRequest) : MeResponse :=
  ⟨200, true, some "Get user endpoint is working",
    some ⟨"sample-id", "sampleuser", "sample@example.com"⟩⟩

/-! ## `server.js` : environment bootstrap and global error handler -/

namespace Server

/-- The secret the bootstrap substitutes when none is configured. -/
def fallbackSecret : String := "fallback_jwt_secret_for_development_digital_voting_2024_12345"

/-- The bootstrap block of `server.js`: `dotenv` loads the environment (`none`
when it throws; the `catch` then only logs), a falsy `JWT_SECRET` is replaced
by the fallback and a falsy `JWT_EXPIRE` by `30d`. -/
def bootstrap (dotenv : Env → Option Env) (env : Env) : Env :=
  match dotenv env with
  | none => env
  | some e =>
    { JWT_SECRET := if truthy e.JWT_SECRET then e.JWT_SECRET else some fallbackSecret
      JWT_EXPIRE := if truthy e.JWT_EXPIRE then e.JWT_EXPIRE else some "30d"
      NODE_ENV := e.NODE_ENV }

/-- The `code` of an error object: a number (Mongo) or a string (Node). -/
inductive ErrCode where
  | num (n : Nat)
  | str (s : String)
deriving DecidableEq, Repr

/-- An error object as the global handler reads it; `errors` holds the
messages of `Object.values(err.errors)`. -/
structure JsError where
  name : String
  code : Option ErrCode
  message : String
  status : Option Nat
  stack : Option String
  errors : List String
deriving DecidableEq, Repr

/-- The JSON response of the global error handler. -/
structure ErrorResponse where
  status : Nat
  success : Bool
  message : String
  errors : Option (List String)
  stack : Option String
deriving DecidableEq, Repr

/-- The global error-handling middleware `app.use((err, req, res, next) => ...)`. -/
def errorHandler (env : Env) (err : JsError) : ErrorResponse :=
  if err.name == "ValidationError" then
    ⟨400, false, "Validation Error", some err.errors, none⟩
  else if err.code == some (.num 11000) then
    ⟨400, false, "Duplicate field value entered", none, none⟩
  else if err.name == "JsonWebTokenError" then
    ⟨401, false, "Invalid token", none, none⟩
  else if err.code == some (.str "MODULE_NOT_FOUND") then
    ⟨500, false, "Server configuration error: Route module not found", none, none⟩
  else
    ⟨if err.status.getD 0 == 0 then 500 else err.status.getD 0, false,
      if err.message == "" then "Internal Server Error" else err.message, none,
      if env.NODE_ENV == some "development" then err.stack else none⟩

/-- A rejected persistence call as the error object it throws. -/
def ofDbError (e : DbError) (stack : Option String) : JsError :=
  ⟨e.name, e.code.map ErrCode.num, e.message, none, stack, []⟩

end Server

/-! ## More concrete data for the worked examples -/

/-- An environment in production mode. -/
def prodEnv : Env := ⟨some "s3cret", none, some "production"⟩

/-- A body with the required paths of a competition, starting 2025-01-10 and
ending 2025-01-05. -/
def backwardsBody : CompetitionBody :=
  ⟨some "Song contest", some "Sing", some "music", none, some 1736467200000,
    some 1736035200000, none, none, none, none, none⟩

/-- A body with the required paths of a competition, from 2025-01-05 to
2025-01-10, that names `u1` as creator. -/
def contestBody : CompetitionBody :=
  ⟨some "Song contest", some "Sing", some "music", some u1, some 1736035200000,
    some 1736467200000, none, none, none, none, none⟩

/-- A completed competition of `u1`. -/
def completedCompetition : Competition :=
  ⟨c2, "Old contest", "Done", "art", u1, 1000, 2000, 100, 0, 0, "completed", 700⟩

/-- A competition created at the same instant as `completedCompetition`. -/
def twinCompetition : Competition :=
  ⟨c3, "Twin contest", "Same time", "art", u1, 1000, 2000, 100, 0, 0, "upcoming", 700⟩

/-- A persistence failure that carries internal detail. -/
def connectionRefused : DbError :=
  ⟨"MongoNetworkError", none, "connect ECONNREFUSED 10.0.0.5:27017"⟩

/-! # Theorems -/

open Competitions Auth

/-! ## Ownership (C1, C2) -/

/-- The status of a mutating request once the lookup has produced `c`. -/
lemma mutate_status_of_found (f : Faults) (store : List Competition) (id : ObjectId)
    (c : Competition) (user : AuthUser) (m : Mutation)
    (hfind : Competition.findById f store id = .ok (some c)) :
    (notAuthorized c user = true ∧ (mutate f store id user m).response.status = 403) ∨
    (notAuthorized c user = false ∧ (mutate f store id user m).response.status ≠ 403) := by
  cases hna : notAuthorized c user
  · right
    refine ⟨rfl, ?_⟩
    cases m with
    | update body =>
      simp only [mutate, routerPut, hfind, hna]
      cases Competition.findByIdAndUpdate f store id body <;> simp [serverError]
    | remove =>
      simp only [mutate, routerDelete, hfind, hna]
      cases Competition.findByIdAndDelete f store id <;> simp [serverError]
  · left
    refine ⟨rfl, ?_⟩
    cases m <;> simp [mutate, routerPut, routerDelete, hfind, hna]

/-- The ownership test fails exactly for a caller who is neither the creator nor an admin. -/
lemma notAuthorized_iff (c : Competition) (user : AuthUser) :
    notAuthorized c user = true ↔ (user.id ≠ c.creator ∧ user.role ≠ "admin") := by
  simp only [notAuthorized, Bool.and_eq_true, bne_iff_ne, ne_eq]
  constructor
  · rintro ⟨h1, h2⟩
    exact ⟨fun h => h1 h.symm, h2⟩
  · rintro ⟨h1, h2⟩
    exact ⟨fun h => h1 h.symm, h2⟩

/-- C1: for an existing competition `c` (the lookup of the request's id yields
`c`), any authenticated identity and any body, `PUT /:id` and `DELETE /:id`
answer 403 if and only if the identity's id differs from `c.creator` and its
role is not `admin`. -/
theorem forbidden_iff_neither_owner_nor_admin (f : Faults) (store : List Competition)
    (id : ObjectId) (c : Competition) (user : AuthUser) (m : Mutation)
    (hfind : Competition.findById f store id = .ok (some c)) :
    (mutate f store id user m).response.status = 403 ↔
      (user.id ≠ c.creator ∧ user.role ≠ "admin") := by
  rw [← notAuthorized_iff]
  rcases mutate_status_of_found f store id c user m hfind with ⟨h1, h2⟩ | ⟨h1, h2⟩
  · simp [h1, h2]
  · simp [h1, h2]

/-- C1, worked: `u2`, a plain member, updating the competition of `u1`. -/
theorem forbidden_iff_neither_owner_nor_admin_witness :
    Competition.findById noFaults [demoCompetition] c1 = .ok (some demoCompetition) ∧
    ((mutate noFaults [demoCompetition] c1 ⟨u2, "member"⟩
        (.update emptyBody)).response.status = 403 ↔
      ((u2 : String) ≠ demoCompetition.creator ∧ ("member" : String) ≠ "admin")) :=
  ⟨rfl, forbidden_iff_neither_owner_nor_admin noFaults [demoCompetition] c1 demoCompetition
    ⟨u2, "member"⟩ (.update emptyBody) rfl⟩

/-- C2: a mutating request answered with 403 or 404 leaves the stored
competitions exactly as they were and issues no persistence call besides the
lookup: neither `findByIdAndUpdate` nor `findByIdAndDelete` is performed. -/
theorem rejected_mutation_changes_nothing (f : Faults) (store : List Competition)
    (id : ObjectId) (user : AuthUser) (m : Mutation)
    (h : (mutate f store id user m).response.status = 403 ∨
         (mutate f store id user m).response.status = 404) :
    (mutate f store id user m).store = store ∧
    (mutate f store id user m).calls = [DbCall.findById] ∧
    m.call ∉ (mutate f store id user m).calls := by
  cases m with
  | update body =>
    simp only [mutate, routerPut, Mutation.call] at h ⊢
    cases hf : Competition.findById f store id with
    | error e => simp [hf, serverError] at h
    | ok o =>
      cases o with
      | none => simp
      | some c =>
        simp only [hf] at h ⊢
        cases hna : notAuthorized c user
        · simp only [hna] at h
          cases hu : Competition.findByIdAndUpdate f store id body <;>
            simp [hu, serverError] at h
        · simp
  | remove =>
    simp only [mutate, routerDelete, Mutation.call] at h ⊢
    cases hf : Competition.findById f store id with
    | error e => simp [hf, serverError] at h
    | ok o =>
      cases o with
      | none => simp
      | some c =>
        simp only [hf] at h ⊢
        cases hna : notAuthorized c user
        · simp only [hna] at h
          cases hu : Competition.findByIdAndDelete f store id <;>
            simp [hu, serverError] at h
        · simp

/-- C2, worked: a delete of an unknown id is answered 404 and changes nothing. -/
theorem rejected_mutation_changes_nothing_witness :
    (mutate noFaults [demoCompetition] c4 ⟨u1, "member"⟩ .remove).response.status = 404 ∧
    (mutate noFaults [demoCompetition] c4 ⟨u1, "member"⟩ .remove).store = [demoCompetition] ∧
    (mutate noFaults [demoCompetition] c4 ⟨u1, "member"⟩ .remove).calls = [DbCall.findById] ∧
    DbCall.findByIdAndDelete ∉
      (mutate noFaults [demoCompetition] c4 ⟨u1, "member"⟩ .remove).calls :=
  ⟨rfl, rejected_mutation_changes_nothing noFaults [demoCompetition] c4 ⟨u1, "member"⟩ .remove
    (Or.inr rfl)⟩

/-! ## Facts about the persistence calls and the token -/

lemma removeFirst_sublist {α : Type} (p : α → Bool) (l : List α) :
    (removeFirst p l).Sublist l := by
  induction l with
  | nil => exact List.Sublist.refl _
  | cons a l ih =>
    simp only [removeFirst]
    split
    · exact List.sublist_cons_self a l
    · exact ih.cons₂ a

lemma removeFirst_append_singleton {α : Type} (p : α → Bool) (l : List α) (a : α)
    (hl : ∀ x ∈ l, p x = false) (ha : p a = true) : removeFirst p (l ++ [a]) = l := by
  induction l with
  | nil => simp [removeFirst, ha]
  | cons x l ih =>
    have hx : p x = false := hl x (List.mem_cons_self x l)
    have hrest : ∀ y ∈ l, p y = false := fun y hy => hl y (List.mem_cons_of_mem x hy)
    simp [removeFirst, hx, ih hrest]

/-- What a completed `User.create` has done. -/
lemma create_ok {κ : Type} {L : Lib κ} {f : Faults} {newId : ObjectId} {store : List User}
    {username email password : String} {user : User} {store1 : List User}
    (h : User.create L f newId store username email password = .ok (user, store1)) :
    user = ⟨newId, username, email, L.hash password, "member"⟩ ∧
    store1 = store ++ [user] ∧ (∀ u ∈ store, u.id ≠ newId) := by
  unfold User.create at h
  cases hw : f.write with
  | some e => simp [hw] at h
  | none =>
    simp only [hw] at h
    by_cases hany : store.any (fun u => u.id == newId) = true
    · simp [hany] at h
    · simp only [hany] at h
      simp only [Bool.false_eq_true, ↓reduceIte, Except.ok.injEq, Prod.mk.injEq] at h
      obtain ⟨h1, h2⟩ := h
      refine ⟨h1.symm, ?_, ?_⟩
      · rw [← h2, h1]
      · intro u hu hid
        apply hany
        simp only [List.any_eq_true, beq_iff_eq]
        exact ⟨u, hu, hid⟩

/-- A completed `User.create` when no fault is scheduled and the `_id` is new. -/
lemma create_of_fresh {κ : Type} (L : Lib κ) (f : Faults) (newId : ObjectId) (store : List User)
    (username email password : String) (hw : f.write = none)
    (hfresh : ∀ u ∈ store, u.id ≠ newId) :
    User.create L f newId store username email password =
      .ok (⟨newId, username, email, L.hash password, "member"⟩,
           store ++ [⟨newId, username, email, L.hash password, "member"⟩]) := by
  have hany : store.any (fun u => u.id == newId) = false := by
    rw [Bool.eq_false_iff]
    intro h
    simp only [List.any_eq_true, beq_iff_eq] at h
    obtain ⟨u, hu, hid⟩ := h
    exact hfresh u hu hid
  simp [User.create, hw, hany]

/-- A minted token names the user it was minted for and expires after `iat`
by the configured timespan. -/
lemma generateToken_ok {L : Lib Claims} {env : Env} {now : Nat} {uid : ObjectId} {tok : Token}
    (h : generateToken L env now uid = .ok tok) :
    truthy env.JWT_SECRET = true ∧
    tok.claims.id = uid ∧ tok.claims.alg = "HS256" ∧ tok.claims.timestamp = now ∧
    tok.claims.iat = ((now / 1000 : Nat) : Int) ∧
    tok.signature = L.hmac (env.JWT_SECRET.getD "") tok.claims ∧
    L.span (if truthy env.JWT_EXPIRE then env.JWT_EXPIRE.getD "" else "30d") =
      some (tok.claims.exp - tok.claims.iat) := by
  unfold generateToken at h
  cases hs : truthy env.JWT_SECRET with
  | false => simp [hs] at h
  | true =>
    simp only [hs, Bool.not_true, Bool.false_eq_true, ↓reduceIte] at h
    unfold jwtSign at h
    cases hspan : L.span (if truthy env.JWT_EXPIRE then env.JWT_EXPIRE.getD "" else "30d") with
    | none => simp [hspan] at h
    | some sp =>
      simp only [hspan, Except.ok.injEq] at h
      subst h
      simp

/-- Minting succeeds when a secret is configured and the expiry reads as a timespan. -/
lemma generateToken_of_configured (L : Lib Claims) (env : Env) (now : Nat) (uid : ObjectId)
    (sp : Int) (hs : truthy env.JWT_SECRET = true)
    (hspan : L.span (if truthy env.JWT_EXPIRE then env.JWT_EXPIRE.getD "" else "30d") = some sp) :
    generateToken L env now uid =
      .ok ⟨⟨"HS256", uid, now, ((now / 1000 : Nat) : Int), ((now / 1000 : Nat) : Int) + sp⟩,
           L.hmac (env.JWT_SECRET.getD "")
             ⟨"HS256", uid, now, ((now / 1000 : Nat) : Int), ((now / 1000 : Nat) : Int) + sp⟩⟩ := by
  simp [generateToken, jwtSign, hs, hspan]

/-- The register chain reports no error exactly on a valid body. -/
lemma registerValidation_eq_nil {κ : Type} (L : Lib κ) (b : RegisterBody) :
    registerValidation L b = [] ↔
      (3 ≤ b.username.length ∧ L.isEmail b.email = true ∧ 6 ≤ b.password.length) := by
  unfold registerValidation
  by_cases h1 : 3 ≤ b.username.length <;> by_cases h2 : L.isEmail b.email = true <;>
    by_cases h3 : 6 ≤ b.password.length <;> simp [h1, h2, h3]

/-- Register on a body that fails validation. -/
lemma register_invalid (L : Lib Claims) (env : Env) (f : Faults) (now : Nat) (newId : ObjectId)
    (store : List User) (body : RegisterBody) (h : registerValidation L body ≠ []) :
    routerPostRegister L env f now newId store body =
      ⟨validationFailed (registerValidation L body), store, []⟩ := by
  unfold routerPostRegister
  have : (registerValidation L body).isEmpty = false := by
    cases hv : registerValidation L body with
    | nil => exact absurd hv h
    | cons a l => rfl
  simp [this]

/-- Register on a valid body: what follows the validation step. -/
lemma register_valid (L : Lib Claims) (env : Env) (f : Faults) (now : Nat) (newId : ObjectId)
    (store : List User) (body : RegisterBody) (h : registerValidation L body = []) :
    routerPostRegister L env f now newId store body =
      match User.findOne f store
          (fun u => u.email == body.email || u.username == body.username) with
      | .error e => ⟨registerServerError e.message, store, [.findOne]⟩
      | .ok (some _) => ⟨userExists, store, [.findOne]⟩
      | .ok none =>
        match User.create L f newId store body.username body.email body.password with
        | .error e => ⟨registerServerError e.message, store, [.findOne, .create]⟩
        | .ok (user, store1) =>
          match generateToken L env now user.id with
          | .error msg =>
            match User.findByIdAndDelete f store1 user.id with
            | .error e =>
              ⟨registerServerError e.message, store1, [.findOne, .create, .findByIdAndDelete]⟩
            | .ok store2 =>
              ⟨authSetupFailed msg, store2, [.findOne, .create, .findByIdAndDelete]⟩
          | .ok token => ⟨success 201 token user, store1, [.findOne, .create]⟩ := by
  unfold routerPostRegister
  simp [h]

/-- The rollback delete, when it completes, undoes a completed create. -/
lemma rollback_restores {κ : Type} {L : Lib κ} {f : Faults} {newId : ObjectId}
    {store : List User} {username email password : String} {user : User} {store1 : List User}
    (hc : User.create L f newId store username email password = .ok (user, store1))
    (hr : f.remove = none) :
    User.findByIdAndDelete f store1 user.id = .ok store := by
  obtain ⟨hu, hs, hfresh⟩ := create_ok hc
  have hid : user.id = newId := by rw [hu]
  unfold User.findByIdAndDelete
  simp only [hr, hs]
  congr 1
  apply removeFirst_append_singleton
  · intro x hx
    have := hfresh x hx
    simp [hid, this]
  · simp

/-! ## Registration (C3, C4, C5) -/

/-- C3, refuted as stated: `alice` registers on a server without a secret
while the rollback delete is rejected.  The request passes validation and the
duplicate check, the identity is persisted and token minting fails; but the
identity is not deleted again and the answer is the generic `Server error
during registration`, not `Authentication setup failed`: after the request the
identity is stored and no token was returned. -/
theorem rollback_failure_keeps_identity :
    registerValidation demoLib aliceBody = [] ∧
    User.findOne ⟨none, none, some connectionRefused⟩ [bob]
        (fun u => u.email == aliceBody.email || u.username == aliceBody.username) = .ok none ∧
    User.create demoLib ⟨none, none, some connectionRefused⟩ u9 [bob] aliceBody.username
        aliceBody.email aliceBody.password =
      .ok (⟨u9, "alice", "alice@x.com", "h$secret1", "member"⟩,
           [bob, ⟨u9, "alice", "alice@x.com", "h$secret1", "member"⟩]) ∧
    generateToken demoLib bareEnv 5000 u9 =
      .error "JWT_SECRET is not defined in environment variables" ∧
    (routerPostRegister demoLib bareEnv ⟨none, none, some connectionRefused⟩ 5000 u9 [bob]
        aliceBody).response =
      ⟨500, false, some "Server error during registration", none,
        some "connect ECONNREFUSED 10.0.0.5:27017", none, none, none⟩ ∧
    (routerPostRegister demoLib bareEnv ⟨none, none, some connectionRefused⟩ 5000 u9 [bob]
        aliceBody).store = [bob, ⟨u9, "alice", "alice@x.com", "h$secret1", "member"⟩] ∧
    (routerPostRegister demoLib bareEnv ⟨none, none, some connectionRefused⟩ 5000 u9 [bob]
        aliceBody).store ≠ [bob] := by
  refine ⟨by decide, rfl, rfl, rfl, rfl, rfl, by decide⟩

/-- C3, amended: registration is atomic provided the rollback delete
completes when it is issued.  Then (1) on a request that passes validation
and the duplicate check, whose identity was persisted and whose token minting
then fails, the handler deletes the identity again and answers
`Authentication setup failed`, the store being the one before the request;
and (2) every request ends either with status 201, a token for the new
identity in the response and that identity in the store, or with the store as
before the request and no token. -/
theorem register_atomic (L : Lib Claims) (env : Env) (f : Faults) (now : Nat)
    (newId : ObjectId) (store : List User) (body : RegisterBody)
    (hrollback : f.remove = none) :
    (∀ user store1 msg,
      registerValidation L body = [] →
      User.findOne f store (fun u => u.email == body.email || u.username == body.username)
        = .ok none →
      User.create L f newId store body.username body.email body.password = .ok (user, store1) →
      generateToken L env now user.id = .error msg →
        (routerPostRegister L env f now newId store body).response = authSetupFailed msg ∧
        (routerPostRegister L env f now newId store body).store = store ∧
        user ∉ (routerPostRegister L env f now newId store body).store ∧
        (routerPostRegister L env f now newId store body).calls =
          [DbCall.findOne, DbCall.create, DbCall.findByIdAndDelete]) ∧
    ((∃ tok user,
        (routerPostRegister L env f now newId store body).response = success 201 tok user ∧
        user ∈ (routerPostRegister L env f now newId store body).store ∧
        user.id = newId ∧ user.username = body.username ∧ user.email = body.email ∧
        tok.claims.id = user.id) ∨
     ((routerPostRegister L env f now newId store body).store = store ∧
      (routerPostRegister L env f now newId store body).response.token = none)) := by
  constructor
  · intro user store1 msg hv hfind hcreate htok
    have hdel := rollback_restores hcreate hrollback
    obtain ⟨hu, _, hfresh⟩ := create_ok hcreate
    rw [register_valid L env f now newId store body hv]
    simp only [hfind, hcreate, htok, hdel, true_and, and_true]
    intro hmem
    exact hfresh user hmem (by rw [hu])
  · by_cases hv : registerValidation L body = []
    · rw [register_valid L env f now newId store body hv]
      cases hfind : User.findOne f store
          (fun u => u.email == body.email || u.username == body.username) with
      | error e => right; simp [registerServerError]
      | ok o =>
        cases o with
        | some u => right; simp [userExists]
        | none =>
          cases hcreate :
              User.create L f newId store body.username body.email body.password with
          | error e => right; simp [registerServerError]
          | ok pr =>
            obtain ⟨user, store1⟩ := pr
            obtain ⟨hu, hs, _⟩ := create_ok hcreate
            cases htok : generateToken L env now user.id with
            | error msg =>
              right
              have hdel := rollback_restores hcreate hrollback
              simp only [htok, hdel]
              simp [authSetupFailed]
            | ok tok =>
              left
              simp only [htok]
              refine ⟨tok, user, rfl, ?_, ?_, ?_, ?_, (generateToken_ok htok).2.1⟩
              · simp [hs]
              · rw [hu]
              · rw [hu]
              · rw [hu]
    · right
      rw [register_invalid L env f now newId store body hv]
      simp [validationFailed]

/-- C3 amended, worked: `alice` registers on a server without a secret; the identity
is rolled back and the store is the one before the request. -/
theorem register_atomic_witness :
    (routerPostRegister demoLib bareEnv noFaults 5000 u9 [bob] aliceBody).response =
        authSetupFailed "JWT_SECRET is not defined in environment variables" ∧
    (routerPostRegister demoLib bareEnv noFaults 5000 u9 [bob] aliceBody).store = [bob] ∧
    (routerPostRegister demoLib bareEnv noFaults 5000 u9 [bob] aliceBody).response.token
        = none :=
  have h := (register_atomic demoLib bareEnv noFaults 5000 u9 [bob] aliceBody rfl).1
    ⟨u9, "alice", "alice@x.com", "h$secret1", "member"⟩
    [bob, ⟨u9, "alice", "alice@x.com", "h$secret1", "member"⟩]
    "JWT_SECRET is not defined in environment variables" (by decide) rfl rfl rfl
  ⟨h.1, h.2.1, by rw [h.1]; rfl⟩

/-- C4: a register request whose username is shorter than 3, whose email is
malformed or whose password is shorter than 6 is answered 400 with the list of
field errors (one for each failing field), carries no token, and issues no
persistence call at all: no identity is looked up or persisted. -/
theorem invalid_register_rejected (L : Lib Claims) (env : Env) (f : Faults) (now : Nat)
    (newId : ObjectId) (store : List User) (body : RegisterBody)
    (h : body.username.length < 3 ∨ L.isEmail body.email = false ∨ body.password.length < 6) :
    (routerPostRegister L env f now newId store body).response =
        ⟨400, false, none, some (registerValidation L body), none, none, none, none⟩ ∧
    registerValidation L body ≠ [] ∧
    (body.username.length < 3 →
      ⟨"username", "Username must be at least 3 characters long"⟩ ∈ registerValidation L body) ∧
    (L.isEmail body.email = false →
      ⟨"email", "Please provide a valid email"⟩ ∈ registerValidation L body) ∧
    (body.password.length < 6 →
      ⟨"password", "Password must be at least 6 characters long"⟩ ∈ registerValidation L body) ∧
    (routerPostRegister L env f now newId store body).response.token = none ∧
    (routerPostRegister L env f now newId store body).store = store ∧
    (routerPostRegister L env f now newId store body).calls = [] := by
  have hne : registerValidation L body ≠ [] := by
    intro hnil
    obtain ⟨h1, h2, h3⟩ := (registerValidation_eq_nil L body).1 hnil
    rcases h with h | h | h
    · omega
    · rw [h2] at h; exact Bool.noConfusion h
    · omega
  rw [register_invalid L env f now newId store body hne]
  refine ⟨rfl, hne, ?_, ?_, ?_, rfl, rfl, rfl⟩
  · intro hu
    have : ¬ 3 ≤ body.username.length := by omega
    simp [registerValidation, this]
  · intro he
    simp [registerValidation, he]
  · intro hp
    have : ¬ 6 ≤ body.password.length := by omega
    simp [registerValidation, this]

/-- C4, worked: the username `al` is too short. -/
theorem invalid_register_rejected_witness :
    (routerPostRegister demoLib demoEnv noFaults 5000 u9 [bob]
        ⟨"al", "alice@x.com", "secret1"⟩).response =
      ⟨400, false, none,
        some [⟨"username", "Username must be at least 3 characters long"⟩],
        none, none, none, none⟩ ∧
    (routerPostRegister demoLib demoEnv noFaults 5000 u9 [bob]
        ⟨"al", "alice@x.com", "secret1"⟩).calls = [] :=
  have h := invalid_register_rejected demoLib demoEnv noFaults 5000 u9 [bob]
    ⟨"al", "alice@x.com", "secret1"⟩ (Or.inl (by decide))
  ⟨h.1, h.2.2.2.2.2.2.2⟩

/-- A completed lookup that finds nothing: no stored identity passes the filter. -/
lemma findOne_none {f : Faults} {store : List User} {filter : User → Bool}
    (h : User.findOne f store filter = .ok none) : ∀ u ∈ store, filter u = false := by
  unfold User.findOne at h
  cases hr : f.read with
  | some e => simp [hr] at h
  | none =>
    simp only [hr, Except.ok.injEq] at h
    intro u hu
    have := List.find?_eq_none.1 h u hu
    simpa using this

/-- One registration keeps usernames and emails unique. -/
lemma register_preserves_unique (L : Lib Claims) (env : Env) (f : Faults) (now : Nat)
    (newId : ObjectId) (store : List User) (body : RegisterBody)
    (hun : UniqueIdentities store) :
    UniqueIdentities (routerPostRegister L env f now newId store body).store := by
  by_cases hv : registerValidation L body = []
  · rw [register_valid L env f now newId store body hv]
    cases hfind : User.findOne f store
        (fun u => u.email == body.email || u.username == body.username) with
    | error e => exact hun
    | ok o =>
      cases o with
      | some u => exact hun
      | none =>
        cases hcreate :
            User.create L f newId store body.username body.email body.password with
        | error e => exact hun
        | ok pr =>
          obtain ⟨user, store1⟩ := pr
          obtain ⟨hu, hs, _⟩ := create_ok hcreate
          have hnone := findOne_none hfind
          have hun1 : UniqueIdentities store1 := by
            rw [hs]
            unfold UniqueIdentities
            rw [List.pairwise_append]
            refine ⟨hun, List.pairwise_singleton _ _, ?_⟩
            intro a ha b hb
            rw [List.mem_singleton] at hb
            have hfa := hnone a ha
            simp only [Bool.or_eq_false_iff, beq_eq_false_iff_ne, ne_eq] at hfa
            rw [hb, hu]
            exact ⟨hfa.2, hfa.1⟩
          cases htok : generateToken L env now user.id with
          | error msg =>
            simp only [htok]
            cases hdel : User.findByIdAndDelete f store1 user.id with
            | error e => exact hun1
            | ok store2 =>
              have hsub : store2.Sublist store1 := by
                unfold User.findByIdAndDelete at hdel
                cases hr : f.remove with
                | some e => simp [hr] at hdel
                | none =>
                  simp only [hr, Except.ok.injEq] at hdel
                  rw [← hdel]
                  exact removeFirst_sublist _ _
              exact List.Pairwise.sublist hsub hun1
          | ok tok =>
            simp only [htok]
            exact hun1
  · rw [register_invalid L env f now newId store body hv]
    exact hun

/-- C5: a valid register request on a store that already holds an identity
with the same email or the same username (the lookup completing) is answered
400 `User already exists with this email or username`; no identity is created
(the store is unchanged and `create` is not called) and no token is minted.
Consequently registrations served one after the other keep usernames and
emails unique. -/
theorem duplicate_register_rejected (L : Lib Claims) (env : Env) (f : Faults) (now : Nat)
    (newId : ObjectId) (store : List User) (body : RegisterBody)
    (hu : 3 ≤ body.username.length) (he : L.isEmail body.email = true)
    (hp : 6 ≤ body.password.length) (hread : f.read = none)
    (hdup : ∃ u ∈ store, u.email = body.email ∨ u.username = body.username) :
    (routerPostRegister L env f now newId store body).response =
        ⟨400, false, some "User already exists with this email or username", none, none, none,
          none, none⟩ ∧
    (routerPostRegister L env f now newId store body).store = store ∧
    (routerPostRegister L env f now newId store body).calls = [DbCall.findOne] ∧
    (∀ (runs : List RegisterRun) (s : List User),
      UniqueIdentities s → UniqueIdentities (registerAll L runs s)) := by
  have hv : registerValidation L body = [] := (registerValidation_eq_nil L body).2 ⟨hu, he, hp⟩
  have hinv : ∀ (runs : List RegisterRun) (s : List User),
      UniqueIdentities s → UniqueIdentities (registerAll L runs s) := by
    intro runs
    induction runs with
    | nil => intro s hs; exact hs
    | cons r rest ih =>
      intro s hs
      exact ih _ (register_preserves_unique L r.env r.faults r.now r.newId s r.body hs)
  rw [register_valid L env f now newId store body hv]
  cases hfind : User.findOne f store
      (fun u => u.email == body.email || u.username == body.username) with
  | error e => simp [User.findOne, hread] at hfind
  | ok o =>
    cases o with
    | some u => exact ⟨rfl, rfl, rfl, hinv⟩
    | none =>
      exfalso
      obtain ⟨u, hmem, hor⟩ := hdup
      have := findOne_none hfind u hmem
      simp only [Bool.or_eq_false_iff, beq_eq_false_iff_ne, ne_eq] at this
      rcases hor with h | h
      · exact this.1 h
      · exact this.2 h

/-- C5, worked: `bob@x.com` is taken; and `alice` registering twice from the
empty store leaves unique usernames and emails. -/
theorem duplicate_register_rejected_witness :
    (routerPostRegister demoLib demoEnv noFaults 5000 u9 [bob]
        ⟨"bobby", "bob@x.com", "secret1"⟩).response =
      ⟨400, false, some "User already exists with this email or username", none, none, none,
        none, none⟩ ∧
    (routerPostRegister demoLib demoEnv noFaults 5000 u9 [bob]
        ⟨"bobby", "bob@x.com", "secret1"⟩).store = [bob] ∧
    UniqueIdentities (registerAll demoLib
      [⟨demoEnv, noFaults, 5000, u9, aliceBody⟩, ⟨demoEnv, noFaults, 6000, u10, aliceBody⟩]
      []) :=
  have h := duplicate_register_rejected demoLib demoEnv noFaults 5000 u9 [bob]
    ⟨"bobby", "bob@x.com", "secret1"⟩ (by decide) rfl (by decide) rfl
    ⟨bob, List.mem_singleton.2 rfl, Or.inl rfl⟩
  ⟨h.1, h.2.1, h.2.2.2 _ [] List.Pairwise.nil⟩

/-! ## Login and tokens (C6, C7, C8) -/

/-- Login on a well-formed body: what follows the validation step. -/
lemma login_valid (L : Lib Claims) (env : Env) (f : Faults) (now : Nat) (store : List User)
    (body : LoginBody) (h : loginValidation L body = []) :
    routerPostLogin L env f now store body =
      match User.findOne f store (fun u => u.email == body.email) with
      | .error _ =>
        ⟨⟨500, false, some "Server error during login", none, none, none, none, none⟩, store,
          [.findOne]⟩
      | .ok none => ⟨invalidCredentials, store, [.findOne]⟩
      | .ok (some user) =>
        if !User.matchPassword L user (body.password.getD "") then
          ⟨invalidCredentials, store, [.findOne]⟩
        else
          match generateToken L env now user.id with
          | .error msg =>
            ⟨⟨500, false, some "Authentication failed", none, some msg, none, none, none⟩, store,
              [.findOne]⟩
          | .ok token => ⟨success 200 token user, store, [.findOne]⟩ := by
  unfold routerPostLogin
  simp [h]

/-- C6: login fails uniformly.  For a well-formed login request, the response
on a store where no identity has the given email and the response on a store
where the identity exists but the password does not match are the same
response: status 401, `success: false`, message `Invalid credentials`, and no
other key. -/
theorem login_failure_uniform (L : Lib Claims) (env₁ env₂ : Env) (f₁ f₂ : Faults)
    (now₁ now₂ : Nat) (store₁ store₂ : List User) (body : LoginBody) (user : User)
    (hemail : L.isEmail body.email = true) (hpw : body.password.isSome = true)
    (hr₁ : f₁.read = none) (hr₂ : f₂.read = none)
    (habsent : ∀ u ∈ store₁, u.email ≠ body.email)
    (hpresent : store₂.find? (fun u => u.email == body.email) = some user)
    (hwrong : User.matchPassword L user (body.password.getD "") = false) :
    (routerPostLogin L env₁ f₁ now₁ store₁ body).response =
      (routerPostLogin L env₂ f₂ now₂ store₂ body).response ∧
    (routerPostLogin L env₂ f₂ now₂ store₂ body).response =
      ⟨401, false, some "Invalid credentials", none, none, none, none, none⟩ := by
  have hv : loginValidation L body = [] := by simp [loginValidation, hemail, hpw]
  have h1 : User.findOne f₁ store₁ (fun u => u.email == body.email) = .ok none := by
    unfold User.findOne
    simp only [hr₁, Except.ok.injEq]
    rw [List.find?_eq_none]
    intro u hu
    simpa using habsent u hu
  have h2 : User.findOne f₂ store₂ (fun u => u.email == body.email) = .ok (some user) := by
    unfold User.findOne
    simp only [hr₂, hpresent]
  rw [login_valid L env₁ f₁ now₁ store₁ body hv, login_valid L env₂ f₂ now₂ store₂ body hv]
  simp only [h1, h2, hwrong]
  exact ⟨rfl, rfl⟩

/-- C6, worked: an unknown email on the empty store, and `bob` with a wrong password. -/
theorem login_failure_uniform_witness :
    (routerPostLogin demoLib demoEnv noFaults 5000 [] ⟨"bob@x.com", some "wrong"⟩).response =
      (routerPostLogin demoLib demoEnv noFaults 6000 [bob] ⟨"bob@x.com", some "wrong"⟩).response ∧
    (routerPostLogin demoLib demoEnv noFaults 6000 [bob] ⟨"bob@x.com", some "wrong"⟩).response =
      ⟨401, false, some "Invalid credentials", none, none, none, none, none⟩ :=
  login_failure_uniform demoLib demoEnv demoEnv noFaults noFaults 5000 6000 [] [bob]
    ⟨"bob@x.com", some "wrong"⟩ bob rfl rfl rfl rfl (fun _ h => nomatch h) rfl (by decide)

/-- C7: token round trip.  With a secret configured and an expiry that reads
as a timespan (`JWT_EXPIRE`, or `30d` when that is unset or empty),
`generateToken` returns an HS256 token over `{id, timestamp}` expiring the
timespan after `iat`; under the same secret that token verifies to the user
id at every clock before the expiry and fails with `TokenExpired` at every
clock after it. -/
theorem token_round_trip (L : Lib Claims) (env : Env) (now : Nat) (userId : ObjectId) (sp : Int)
    (hsecret : truthy env.JWT_SECRET = true)
    (hspan : L.span (if truthy env.JWT_EXPIRE then env.JWT_EXPIRE.getD "" else "30d") = some sp) :
    ∃ tok, generateToken L env now userId = .ok tok ∧
      tok.claims.alg = "HS256" ∧ tok.claims.id = userId ∧ tok.claims.timestamp = now ∧
      tok.claims.exp = ((now / 1000 : Nat) : Int) + sp ∧
      (truthy env.JWT_EXPIRE = false → L.span "30d" = some (tok.claims.exp - tok.claims.iat)) ∧
      (∀ t : Nat, (t : Int) < tok.claims.exp * 1000 →
        verifyToken L (env.JWT_SECRET.getD "") t tok = .ok userId) ∧
      (∀ t : Nat, tok.claims.exp * 1000 < (t : Int) →
        verifyToken L (env.JWT_SECRET.getD "") t tok = .error .TokenExpired) := by
  refine ⟨_, generateToken_of_configured L env now userId sp hsecret hspan, rfl, rfl, rfl, rfl,
    ?_, ?_, ?_⟩
  · intro hexp
    simp only [hexp, Bool.false_eq_true, ↓reduceIte] at hspan
    simp [hspan]
  · intro t ht
    simp only [verifyToken, bne_self_eq_false, Bool.or_self, Bool.false_eq_true, ↓reduceIte]
    simp only at ht
    have : ¬ ((now / 1000 : Nat) : Int) + sp ≤ ((t / 1000 : Nat) : Int) := by omega
    rw [if_neg this]
  · intro t ht
    simp only [verifyToken, bne_self_eq_false, Bool.or_self, Bool.false_eq_true, ↓reduceIte]
    simp only at ht
    have : ((now / 1000 : Nat) : Int) + sp ≤ ((t / 1000 : Nat) : Int) := by omega
    rw [if_pos this]

/-- C7, worked: a token minted at clock 5000 under the default `30d` verifies
one second later and has expired thirty-one days later. -/
theorem token_round_trip_witness :
    ∃ tok, generateToken demoLib demoEnv 5000 u9 = .ok tok ∧
      tok.claims.exp = 2592005 ∧
      verifyToken demoLib "s3cret" 6000 tok = .ok u9 ∧
      verifyToken demoLib "s3cret" 2678400000 tok = .error .TokenExpired :=
  match token_round_trip demoLib demoEnv 5000 u9 2592000 rfl rfl with
  | ⟨tok, hgen, _, _, _, hexp, _, hbefore, hafter⟩ =>
    ⟨tok, hgen, by rw [hexp]; rfl, hbefore 6000 (by rw [hexp]; decide),
      hafter 2678400000 (by rw [hexp]; decide)⟩

/-- C8: register, then login.  Let the body be one register accepts, the
store hold no identity with its email or username, the persistence calls
complete (the allocated `_id` being new), a secret and a readable expiry be
configured, and the password comparison accept the password against its own
hash.  Then register answers 201 with a token and the created identity, the
identity is stored, and a following login with the same email and password
answers 200 with a token whose subject id is the id of that identity. -/
theorem register_then_login (L : Lib Claims) (env : Env) (f f' : Faults) (now now' : Nat)
    (newId : ObjectId) (store : List User) (body : RegisterBody) (sp : Int)
    (hu : 3 ≤ body.username.length) (he : L.isEmail body.email = true)
    (hp : 6 ≤ body.password.length)
    (hfree : ∀ u ∈ store, u.email ≠ body.email ∧ u.username ≠ body.username)
    (hread : f.read = none) (hwrite : f.write = none) (hread' : f'.read = none)
    (hfresh : ∀ u ∈ store, u.id ≠ newId)
    (hsecret : truthy env.JWT_SECRET = true)
    (hspan : L.span (if truthy env.JWT_EXPIRE then env.JWT_EXPIRE.getD "" else "30d") = some sp)
    (hcompare : L.compare body.password (L.hash body.password) = true) :
    ∃ tok tok' user,
      (routerPostRegister L env f now newId store body).response = success 201 tok user ∧
      (routerPostRegister L env f now newId store body).response.status = 201 ∧
      (routerPostRegister L env f now newId store body).response.token = some tok ∧
      user ∈ (routerPostRegister L env f now newId store body).store ∧
      user.id = newId ∧ tok.claims.id = user.id ∧
      (routerPostLogin L env f' now'
        (routerPostRegister L env f now newId store body).store
        ⟨body.email, some body.password⟩).response = success 200 tok' user ∧
      (routerPostLogin L env f' now'
        (routerPostRegister L env f now newId store body).store
        ⟨body.email, some body.password⟩).response.status = 200 ∧
      tok'.claims.id = user.id := by
  have hv : registerValidation L body = [] := (registerValidation_eq_nil L body).2 ⟨hu, he, hp⟩
  have hnone : store.find? (fun u => u.email == body.email || u.username == body.username)
      = none := by
    rw [List.find?_eq_none]
    intro u hmem
    have := hfree u hmem
    simp [this.1, this.2]
  have hfind : User.findOne f store
      (fun u => u.email == body.email || u.username == body.username) = .ok none := by
    simp [User.findOne, hread, hnone]
  have hcreate := create_of_fresh L f newId store body.username body.email body.password
    hwrite hfresh
  obtain ⟨tok, htok⟩ : ∃ tok, generateToken L env now newId = .ok tok :=
    ⟨_, generateToken_of_configured L env now newId sp hsecret hspan⟩
  obtain ⟨tok', htok'⟩ : ∃ tok, generateToken L env now' newId = .ok tok :=
    ⟨_, generateToken_of_configured L env now' newId sp hsecret hspan⟩
  have hreg : routerPostRegister L env f now newId store body =
      ⟨success 201 tok ⟨newId, body.username, body.email, L.hash body.password, "member"⟩,
        store ++ [⟨newId, body.username, body.email, L.hash body.password, "member"⟩],
        [.findOne, .create]⟩ := by
    rw [register_valid L env f now newId store body hv]
    simp only [hfind, hcreate, htok]
  have hvl : loginValidation L ⟨body.email, some body.password⟩ = [] := by
    simp [loginValidation, he]
  have hnone' : store.find? (fun u => u.email == body.email) = none := by
    rw [List.find?_eq_none]
    intro u hmem
    have := hfree u hmem
    simp [this.1]
  have hfind' : User.findOne f'
      (store ++ [⟨newId, body.username, body.email, L.hash body.password, "member"⟩])
      (fun u => u.email == body.email) =
        .ok (some ⟨newId, body.username, body.email, L.hash body.password, "member"⟩) := by
    simp [User.findOne, hread', List.find?_append, hnone']
  have hlog : routerPostLogin L env f' now'
      (store ++ [⟨newId, body.username, body.email, L.hash body.password, "member"⟩])
      ⟨body.email, some body.password⟩ =
      ⟨success 200 tok' ⟨newId, body.username, body.email, L.hash body.password, "member"⟩,
        store ++ [⟨newId, body.username, body.email, L.hash body.password, "member"⟩],
        [.findOne]⟩ := by
    rw [login_valid L env f' now' _ _ hvl]
    simp only [hfind', User.matchPassword, Option.getD_some, hcompare, Bool.not_true,
      Bool.false_eq_true, ↓reduceIte, htok']
  rw [hreg, hlog]
  exact ⟨tok, tok', _, rfl, rfl, rfl, by simp, rfl, (generateToken_ok htok).2.1, rfl, rfl,
    (generateToken_ok htok').2.1⟩

/-- C8, worked: `alice` / `alice@x.com` / `secret1` on a store that holds only `bob`. -/
theorem register_then_login_witness :
    ∃ tok tok' user,
      (routerPostRegister demoLib demoEnv noFaults 5000 u9 [bob] aliceBody).response
        = success 201 tok user ∧
      user.id = u9 ∧
      (routerPostLogin demoLib demoEnv noFaults 9000
        (routerPostRegister demoLib demoEnv noFaults 5000 u9 [bob] aliceBody).store
        ⟨"alice@x.com", some "secret1"⟩).response = success 200 tok' user ∧
      tok'.claims.id = u9 :=
  match register_then_login demoLib demoEnv noFaults noFaults 5000 9000 u9 [bob] aliceBody
      2592000 (by decide) rfl (by decide) (by decide) rfl rfl rfl (by decide) rfl rfl
      (by decide) with
  | ⟨tok, tok', user, hreg, _, _, _, hid, _, hlog, _, hsub⟩ =>
    ⟨tok, tok', user, hreg, hid, hlog, by rw [hsub, hid]⟩

/-! ## Entries and votes (C9, C10) -/

lemma mem_upsert_self (e : Entry) (l : List Entry) : e ∈ Entry.upsert e l := by
  induction l with
  | nil => simp [Entry.upsert]
  | cons x l ih =>
    simp only [Entry.upsert]
    split
    · exact List.mem_cons_self e l
    · exact List.mem_cons_of_mem x ih

lemma mem_upsert {e x : Entry} {l : List Entry} (h : x ∈ Entry.upsert e l) : x = e ∨ x ∈ l := by
  induction l with
  | nil =>
    simp only [Entry.upsert, List.mem_singleton] at h
    exact Or.inl h
  | cons y l ih =>
    simp only [Entry.upsert] at h
    split at h
    · rcases List.mem_cons.1 h with h | h
      · exact Or.inl h
      · exact Or.inr (List.mem_cons_of_mem y h)
    · rcases List.mem_cons.1 h with h | h
      · exact Or.inr (h ▸ List.mem_cons_self y l)
      · rcases ih h with h | h
        · exact Or.inl h
        · exact Or.inr (List.mem_cons_of_mem y h)

/-- A completed `save` has written the hooked document by `_id`. -/
lemma save_ok {f : Faults} {store store' : List Entry} {e : Entry}
    (h : Entry.save f store e = .ok store') :
    Entry.validate e = true ∧ store' = Entry.upsert (Entry.preSave e) store := by
  unfold Entry.save at h
  cases hw : f.write with
  | some err => simp [hw] at h
  | none =>
    simp only [hw] at h
    by_cases hv : Entry.validate e = true
    · simp only [hv, ↓reduceIte, Except.ok.injEq] at h
      exact ⟨hv, h.symm⟩
    · simp [hv] at h

/-- A completed `save` keeps the tally invariant of the collection. -/
lemma save_preserves_tally {f : Faults} {store store' : List Entry} {e : Entry}
    (h : Entry.save f store e = .ok store')
    (hinv : ∀ x ∈ store, x.totalVotes = (x.votes.length : Int)) :
    ∀ x ∈ store', x.totalVotes = (x.votes.length : Int) := by
  obtain ⟨_, hs⟩ := save_ok h
  intro x hx
  rw [hs] at hx
  rcases mem_upsert hx with hx | hx
  · rw [hx]; rfl
  · exact hinv x hx

/-- C9: the tally invariant.  For every entry and every list of vote records,
after the pre-save hook `totalVotes` is the number of elements of `votes` (and
the hook leaves `votes` alone); so every entry a completed `save` writes is
stored with `totalVotes = |votes|`, a completed `save` keeps that equation for
every stored entry, and in a collection built by `save` calls alone the
counter of no entry differs from the length of its vote list. -/
theorem tally_invariant :
    (∀ (e : Entry) (votes : List Vote),
      (Entry.preSave { e with votes := votes }).totalVotes = (votes.length : Int) ∧
      (Entry.preSave { e with votes := votes }).votes = votes) ∧
    (∀ (f : Faults) (store store' : List Entry) (e : Entry),
      Entry.save f store e = .ok store' →
        (∃ x ∈ store', x.id = e.id ∧ x.votes = e.votes ∧
          x.totalVotes = (e.votes.length : Int)) ∧
        ((∀ x ∈ store, x.totalVotes = (x.votes.length : Int)) →
          ∀ x ∈ store', x.totalVotes = (x.votes.length : Int))) ∧
    (∀ (runs : List (Faults × Entry)),
      ∀ x ∈ Entry.saveAll runs [], x.totalVotes = (x.votes.length : Int)) := by
  refine ⟨fun e votes => ⟨rfl, rfl⟩, ?_, ?_⟩
  · intro f store store' e h
    refine ⟨⟨Entry.preSave e, ?_, rfl, rfl, rfl⟩, save_preserves_tally h⟩
    rw [(save_ok h).2]
    exact mem_upsert_self _ _
  · intro runs
    have key : ∀ (runs : List (Faults × Entry)) (store : List Entry),
        (∀ x ∈ store, x.totalVotes = (x.votes.length : Int)) →
        ∀ x ∈ Entry.saveAll runs store, x.totalVotes = (x.votes.length : Int) := by
      intro runs
      induction runs with
      | nil => intro store hinv; exact hinv
      | cons r rest ih =>
        intro store hinv
        obtain ⟨f, e⟩ := r
        simp only [Entry.saveAll]
        cases hsave : Entry.save f store e with
        | error err => exact ih store hinv
        | ok store' => exact ih store' (save_preserves_tally hsave hinv)
    exact key runs [] (fun x hx => nomatch hx)

/-- C9, worked: an entry handed to `save` with the stale counter 7 and two
vote records is stored with `totalVotes = 2`. -/
theorem tally_invariant_witness :
    Entry.save noFaults [] { demoEntry with votes := [⟨some v1, 10⟩, ⟨some v2, 20⟩],
                                            totalVotes := 7 }
      = .ok [{ demoEntry with votes := [⟨some v1, 10⟩, ⟨some v2, 20⟩], totalVotes := 2 }] ∧
    (∀ x ∈ [{ demoEntry with votes := [⟨some v1, 10⟩, ⟨some v2, 20⟩], totalVotes := 2 }],
      x.totalVotes = (x.votes.length : Int)) :=
  ⟨rfl, (tally_invariant.2.1 noFaults []
      [{ demoEntry with votes := [⟨some v1, 10⟩, ⟨some v2, 20⟩], totalVotes := 2 }]
      { demoEntry with votes := [⟨some v1, 10⟩, ⟨some v2, 20⟩], totalVotes := 7 } rfl).2
    (fun _ h => nomatch h)⟩

/-- C10, refuted as stated: the entry `e1` saved with two vote records of the
same voter `v1` is accepted; the stored entry names `v1` twice and its
`totalVotes` is 2.  So it is false that every accepted entry names each voter
at most once. -/
theorem same_voter_recorded_twice :
    Entry.save noFaults [demoEntry]
        { demoEntry with votes := [⟨some v1, 10⟩, ⟨some v1, 20⟩] }
      = .ok [{ demoEntry with votes := [⟨some v1, 10⟩, ⟨some v1, 20⟩], totalVotes := 2 }] ∧
    Entry.votesBy { demoEntry with votes := [⟨some v1, 10⟩, ⟨some v1, 20⟩],
                                   totalVotes := 2 } v1 = 2 ∧
    ¬ (∀ (f : Faults) (store store' : List Entry) (e : Entry),
        Entry.save f store e = .ok store' → ∀ x ∈ store', ∀ v, Entry.votesBy x v ≤ 1) := by
  refine ⟨rfl, by decide, ?_⟩
  intro h
  have := h noFaults [demoEntry]
    [{ demoEntry with votes := [⟨some v1, 10⟩, ⟨some v1, 20⟩], totalVotes := 2 }]
    { demoEntry with votes := [⟨some v1, 10⟩, ⟨some v1, 20⟩] } rfl
    { demoEntry with votes := [⟨some v1, 10⟩, ⟨some v1, 20⟩], totalVotes := 2 }
    (List.mem_singleton.2 rfl) v1
  revert this
  decide

/-- C10, amended: the entry schema puts no constraint on the voters of
`votes`.  Whether `save` accepts an entry does not depend on its vote list;
and an entry saved with one more vote record for a voter `v`, whether or not
`v` is already among its voters, is stored with one more record naming `v`
and with `totalVotes` counting every record. -/
theorem votes_unconstrained (f : Faults) (store : List Entry) (e : Entry) (v : ObjectId)
    (t : Int) (hwrite : f.write = none) (hvalid : Entry.validate e = true) :
    (∀ votes : List Vote, Entry.validate { e with votes := votes } = Entry.validate e) ∧
    Entry.save f store { e with votes := e.votes ++ [⟨some v, t⟩] } =
      .ok (Entry.upsert
        { e with votes := e.votes ++ [⟨some v, t⟩], totalVotes := (e.votes.length : Int) + 1 }
        store) ∧
    ({ e with votes := e.votes ++ [⟨some v, t⟩], totalVotes := (e.votes.length : Int) + 1 } : Entry)
      ∈ Entry.upsert
        { e with votes := e.votes ++ [⟨some v, t⟩], totalVotes := (e.votes.length : Int) + 1 }
        store ∧
    Entry.votesBy { e with votes := e.votes ++ [⟨some v, t⟩] } v = Entry.votesBy e v + 1 := by
  refine ⟨fun votes => rfl, ?_, mem_upsert_self _ _, ?_⟩
  · have hv' : Entry.validate { e with votes := e.votes ++ [⟨some v, t⟩] } = true := hvalid
    simp only [Entry.save, hwrite, hv', ↓reduceIte, Entry.preSave, List.length_append,
      List.length_singleton, Nat.cast_add, Nat.cast_one]
  · simp [Entry.votesBy, List.countP_append]

/-- C10 amended, worked: `v1` has voted on `e1`; a second record by `v1` is stored as well. -/
theorem votes_unconstrained_witness :
    Entry.save noFaults [demoEntry] { demoEntry with votes := demoEntry.votes ++ [⟨some v1, 20⟩] }
      = .ok (Entry.upsert
          { demoEntry with votes := demoEntry.votes ++ [⟨some v1, 20⟩],
                           totalVotes := (demoEntry.votes.length : Int) + 1 } [demoEntry]) ∧
    Entry.votesBy { demoEntry with votes := demoEntry.votes ++ [⟨some v1, 20⟩] } v1
      = Entry.votesBy demoEntry v1 + 1 :=
  have h := votes_unconstrained noFaults [demoEntry] demoEntry v1 20 rfl rfl
  ⟨h.2.1, h.2.2.2⟩

/-! ## Competition lifecycle (C11 to C14) -/

open Server

/-- A completed lookup: no read fault, and the first document with that id. -/
lemma findById_ok {f : Faults} {store : List Competition} {id : ObjectId}
    {o : Option Competition} (h : Competition.findById f store id = .ok o) :
    f.read = none ∧ store.find? (fun c => c.id == id) = o := by
  unfold Competition.findById at h
  by_cases hid : isObjectId id = true
  · cases hr : f.read with
    | some e => simp [hid, hr] at h
    | none =>
      simp only [hid, Bool.not_true, Bool.false_eq_true, ↓reduceIte, hr, Except.ok.injEq] at h
      exact ⟨rfl, h⟩
  · simp [hid] at h

/-- The updated document is the one a later lookup finds. -/
lemma find_updateFirst (id : ObjectId) (b : CompetitionBody) (c : Competition)
    (store : List Competition) (h : store.find? (fun x => x.id == id) = some c) :
    (updateFirst id b store).find? (fun x => x.id == id) = some (applyUpdate c b) := by
  induction store with
  | nil => simp at h
  | cons x l ih =>
    by_cases hx : (x.id == id) = true
    · have hxc : x = c := by simpa [List.find?, hx] using h
      have hid : ((applyUpdate x b).id == id) = true := hx
      simp only [updateFirst, hx, ↓reduceIte, List.find?, hid]
      rw [hxc]
    · have hx' : (x.id == id) = false := by simpa using hx
      have hl : l.find? (fun x => x.id == id) = some c := by simpa [List.find?, hx'] using h
      simp only [updateFirst, hx', Bool.false_eq_true, ↓reduceIte, List.find?, ih hl]

/-- A caller who is the creator or an admin passes the ownership test. -/
lemma authorized_of_owner_or_admin (c : Competition) (user : AuthUser)
    (h : user.id = c.creator ∨ user.role = "admin") : notAuthorized c user = false := by
  rw [Bool.eq_false_iff]
  intro hna
  obtain ⟨h1, h2⟩ := (notAuthorized_iff c user).1 hna
  rcases h with h | h
  · exact h1 h
  · exact h2 h

/-- The update handler past the ownership test. -/
lemma put_authorized (f : Faults) (store : List Competition) (id : ObjectId) (c : Competition)
    (user : AuthUser) (body : CompetitionBody)
    (hfind : Competition.findById f store id = .ok (some c))
    (hauth : notAuthorized c user = false) (hwrite : f.write = none) :
    routerPut f store id user body =
      if updateValidators body then
        ⟨⟨200, true, none, some (applyUpdate c body)⟩, updateFirst id body store,
          [.findById, .findByIdAndUpdate]⟩
      else ⟨serverError, store, [.findById, .findByIdAndUpdate]⟩ := by
  have hf := (findById_ok hfind).2
  simp only [routerPut, hfind, hauth, Competition.findByIdAndUpdate, hwrite, hf]
  by_cases hv : updateValidators body = true
  · simp [hv]
  · simp [hv]

/-- The update handler answers 200, 403, 404 or 500 and nothing else. -/
lemma put_status (f : Faults) (store : List Competition) (id : ObjectId) (user : AuthUser)
    (body : CompetitionBody) :
    (routerPut f store id user body).response.status = 200 ∨
    (routerPut f store id user body).response.status = 403 ∨
    (routerPut f store id user body).response.status = 404 ∨
    (routerPut f store id user body).response.status = 500 := by
  unfold routerPut
  cases Competition.findById f store id with
  | error e => simp [serverError]
  | ok o =>
    cases o with
    | none => simp [notFound]
    | some c =>
      cases hna : notAuthorized c user
      · cases Competition.findByIdAndUpdate f store id body <;> simp [hna, serverError]
      · simp [hna]

/-- C11, refuted as stated: the owner `u1` sets the completed competition
`c2` back to `active`, and sets a cancelled one to `upcoming`; both updates
are answered 200 and the new status is stored. -/
theorem completed_set_back_to_active :
    (routerPut noFaults [completedCompetition] c2 ⟨u1, "member"⟩
        { emptyBody with status := some "active" }).response.status = 200 ∧
    (routerPut noFaults [completedCompetition] c2 ⟨u1, "member"⟩
        { emptyBody with status := some "active" }).store =
      [{ completedCompetition with status := "active" }] ∧
    (routerPut noFaults [{ completedCompetition with status := "cancelled" }] c2
        ⟨u1, "member"⟩ { emptyBody with status := some "upcoming" }).response.status = 200 ∧
    (routerPut noFaults [{ completedCompetition with status := "cancelled" }] c2
        ⟨u1, "member"⟩ { emptyBody with status := some "upcoming" }).store =
      [{ completedCompetition with status := "upcoming" }] := by
  refine ⟨?_, ?_, ?_, ?_⟩ <;> rfl

/-- C11, amended: the update handler has no status-transition rule.  For a
competition `c` of any current status, an update by its owner or an admin
whose write completes and whose patch carries status `s`: if the patch passes
the schema validators, it is answered 200 with the updated document, whose
status is `s`, and that document is what the store then holds under the id;
if it fails them (as every `s` outside the enum does), it is answered 500
`Server error` and the store is unchanged.  No update is answered 400. -/
theorem status_update_unrestricted (f : Faults) (store : List Competition) (id : ObjectId)
    (c : Competition) (user : AuthUser) (body : CompetitionBody) (s : String)
    (hfind : Competition.findById f store id = .ok (some c))
    (hauth : user.id = c.creator ∨ user.role = "admin")
    (hwrite : f.write = none) (hstatus : body.status = some s) :
    (updateValidators body = true →
      s ∈ statusEnum ∧
      (routerPut f store id user body).response = ⟨200, true, none, some (applyUpdate c body)⟩ ∧
      (applyUpdate c body).status = s ∧
      (routerPut f store id user body).store.find? (fun x => x.id == id)
        = some (applyUpdate c body)) ∧
    (updateValidators body = false →
      (routerPut f store id user body).response = ⟨500, false, some "Server error", none⟩ ∧
      (routerPut f store id user body).store = store) ∧
    (s ∉ statusEnum → updateValidators body = false) ∧
    (routerPut f store id user body).response.status ≠ 400 := by
  have hput := put_authorized f store id c user body hfind
    (authorized_of_owner_or_admin c user hauth) hwrite
  have henum : updateValidators body = true → s ∈ statusEnum := by
    intro hv
    simp only [updateValidators, hstatus, onPath, Bool.and_eq_true] at hv
    simpa using hv.2
  refine ⟨?_, ?_, ?_, ?_⟩
  · intro hv
    rw [hput, if_pos hv]
    refine ⟨henum hv, rfl, ?_, find_updateFirst id body c store (findById_ok hfind).2⟩
    simp [applyUpdate, hstatus]
  · intro hv
    rw [hput, if_neg (by simp [hv])]
    exact ⟨rfl, rfl⟩
  · intro hs
    rw [Bool.eq_false_iff]
    exact fun hv => hs (henum hv)
  · rcases put_status f store id user body with h | h | h | h <;> rw [h] <;> decide

/-- C11 amended, worked: `completed` to `active` by the owner. -/
theorem status_update_unrestricted_witness :
    (routerPut noFaults [completedCompetition] c2 ⟨u1, "member"⟩
        { emptyBody with status := some "active" }).response =
      ⟨200, true, none, some { completedCompetition with status := "active" }⟩ ∧
    (routerPut noFaults [completedCompetition] c2 ⟨u1, "member"⟩
        { emptyBody with status := some "active" }).store.find? (fun x => x.id == c2)
      = some { completedCompetition with status := "active" } :=
  have h := (status_update_unrestricted noFaults [completedCompetition] c2 completedCompetition
    ⟨u1, "member"⟩ { emptyBody with status := some "active" } "active" rfl (Or.inl rfl) rfl
    rfl).1 rfl
  ⟨h.2.1, h.2.2.2⟩

/-- What a completed `Competition.create` has done. -/
lemma competition_create_ok {f : Faults} {now : Nat} {newId : ObjectId}
    {store : List Competition} {b : CompetitionBody} {doc : Competition}
    {store' : List Competition}
    (h : Competition.create f now newId store b = .ok (doc, store')) :
    createValidators b = true ∧ doc = newCompetition now newId b ∧ store' = store ++ [doc] := by
  unfold Competition.create at h
  cases hw : f.write with
  | some e => simp [hw] at h
  | none =>
    simp only [hw] at h
    by_cases hv : createValidators b = true
    · by_cases hany : store.any (fun c => c.id == newId) = true
      · simp [hv, hany] at h
      · simp only [hv, Bool.not_true, Bool.false_eq_true, ↓reduceIte, hany, Except.ok.injEq,
          Prod.mk.injEq] at h
        exact ⟨hv, h.1.symm, by rw [← h.2, h.1]⟩
    · simp [hv] at h

/-- A `Competition.create` that completes: no write fault, a body that passes
the validators, a new `_id`. -/
lemma competition_create_of_valid (f : Faults) (now : Nat) (newId : ObjectId)
    (store : List Competition) (b : CompetitionBody) (hwrite : f.write = none)
    (hvalid : createValidators b = true) (hfresh : ∀ c ∈ store, c.id ≠ newId) :
    Competition.create f now newId store b =
      .ok (newCompetition now newId b, store ++ [newCompetition now newId b]) := by
  have hany : store.any (fun c => c.id == newId) = false := by
    rw [Bool.eq_false_iff]
    intro h
    simp only [List.any_eq_true, beq_iff_eq] at h
    obtain ⟨c, hc, hid⟩ := h
    exact hfresh c hc hid
  simp [Competition.create, hwrite, hvalid, hany]

/-- The two outcomes of the create handler: 201 with the new document stored
at the end of the collection, or 500 with the collection unchanged. -/
lemma post_outcome (f : Faults) (now : Nat) (newId : ObjectId) (store : List Competition)
    (user : AuthUser) (body : CompetitionBody) :
    (createValidators { body with creator := some user.id } = true ∧
      routerPost f now newId store user body =
        ⟨⟨201, true, none, some (newCompetition now newId { body with creator := some user.id })⟩,
          store ++ [newCompetition now newId { body with creator := some user.id }],
          [.create]⟩) ∨
    routerPost f now newId store user body = ⟨serverError, store, [.create]⟩ := by
  unfold routerPost
  cases h : Competition.create f now newId store { body with creator := some user.id } with
  | error e => right; rfl
  | ok pr =>
    obtain ⟨doc, store'⟩ := pr
    obtain ⟨hv, hdoc, hstore⟩ := competition_create_ok h
    left
    refine ⟨hv, ?_⟩
    simp only [hstore, hdoc]

/-- The object branch pins the creator.  For every caller and every payload
that is a JSON object, a document returned by the handler has
`creator = user.id` and is stored; and when the write completes, the payload
passes the validators and the allocated `_id` is new, the handler answers 201
with such a document, also for a payload that names another user as creator. -/
lemma object_payload_owned_by_caller (f : Faults) (now : Nat) (newId : ObjectId)
    (store : List Competition) (user : AuthUser) (body : CompetitionBody)
    (hwrite : f.write = none)
    (hvalid : createValidators { body with creator := some user.id } = true)
    (hfresh : ∀ c ∈ store, c.id ≠ newId) :
    (∃ doc, (routerPost f now newId store user body).response = ⟨201, true, none, some doc⟩ ∧
      doc.creator = user.id ∧ doc.id = newId ∧
      (routerPost f now newId store user body).store = store ++ [doc]) ∧
    (∀ (f' : Faults) (body' : CompetitionBody) (doc : Competition),
      (routerPost f' now newId store user body').response.data = some doc →
        doc.creator = user.id ∧ doc ∈ (routerPost f' now newId store user body').store) := by
  constructor
  · refine ⟨newCompetition now newId { body with creator := some user.id }, ?_, rfl, rfl, ?_⟩
    · simp only [routerPost, competition_create_of_valid f now newId store _ hwrite hvalid hfresh]
    · simp only [routerPost, competition_create_of_valid f now newId store _ hwrite hvalid hfresh]
  · intro f' body' doc hdata
    rcases post_outcome f' now newId store user body' with ⟨_, h⟩ | h
    · rw [h] at hdata ⊢
      simp only [Option.some.injEq] at hdata
      subst hdata
      exact ⟨rfl, by simp⟩
    · rw [h] at hdata
      simp [serverError] at hdata

/-- On an array every saved document is built from one of the elements alone:
its paths, the creator among them, are those the element names. -/
lemma createEach_docs (f : Faults) (now : Nat) (alloc : Nat → ObjectId) :
    ∀ (elements : List CompetitionBody) (i : Nat) (store : List Competition),
      ∀ doc ∈ (Competition.createEach f now alloc i elements store).1,
        ∃ b ∈ elements, ∃ j, doc = newCompetition now (alloc j) b ∧
          createValidators b = true := by
  intro elements
  induction elements with
  | nil =>
    intro i store doc hdoc
    simp [Competition.createEach] at hdoc
  | cons b rest ih =>
    intro i store doc hdoc
    unfold Competition.createEach at hdoc
    cases hc : Competition.create f now (alloc i) store b with
    | error e =>
      simp only [hc] at hdoc
      obtain ⟨b', hb', j, hj⟩ := ih (i + 1) store doc hdoc
      exact ⟨b', List.mem_cons_of_mem b hb', j, hj⟩
    | ok pr =>
      obtain ⟨d, store'⟩ := pr
      simp only [hc] at hdoc
      obtain ⟨hv, hd, _⟩ := competition_create_ok hc
      rcases List.mem_cons.1 hdoc with h | h
      · exact ⟨b, List.mem_cons_self b rest, i, h.trans hd, hv⟩
      · obtain ⟨b', hb', j, hj⟩ := ih (i + 1) store' doc h
        exact ⟨b', List.mem_cons_of_mem b hb', j, hj⟩

/-- C12, the code at the failing input: `u2` posts the JSON array
`[contestBody]`, whose one element names `u1` as creator.  The array is
created as it is: the answer is 201 and the stored competition has creator
`u1`, not `u2`.  The same element posted as a JSON object gets creator `u2`. -/
theorem array_payload_keeps_named_creator :
    contestBody.creator = some u1 ∧ u1 ≠ u2 ∧
    (routerPostAny noFaults 9000 (fun _ => c4) [] ⟨u2, "member"⟩
        (.array [contestBody])).response =
      ⟨201, true, none, .many [newCompetition 9000 c4 contestBody]⟩ ∧
    (routerPostAny noFaults 9000 (fun _ => c4) [] ⟨u2, "member"⟩
        (.array [contestBody])).store.map (fun c => c.creator) = [u1] ∧
    (routerPostAny noFaults 9000 (fun _ => c4) [] ⟨u2, "member"⟩
        (.object contestBody)).store.map (fun c => c.creator) = [u2] := by
  refine ⟨rfl, by decide, rfl, rfl, rfl⟩

/-- C13, refuted as stated: a payload that carries `status: 'active'` is
accepted and the competition is created with status `active`. -/
theorem created_with_payload_status :
    (routerPost noFaults 9000 c4 [] ⟨u2, "member"⟩
        { backwardsBody with status := some "active" }).response.status = 201 ∧
    (routerPost noFaults 9000 c4 [] ⟨u2, "member"⟩
        { backwardsBody with status := some "active" }).response.data.map (fun c => c.status)
      = some "active" ∧
    (routerPost noFaults 9000 c4 [] ⟨u2, "member"⟩
        { backwardsBody with status := some "active" }).store.map (fun c => c.status)
      = ["active"] := by
  refine ⟨?_, ?_, ?_⟩ <;> rfl

/-- C13, amended: the initial status is the schema default only when the
payload carries none.  The competition created by `POST /competitions` has
the status of the payload when the payload carries one (then one of the four
enum values), and `upcoming` when it carries none. -/
theorem created_status_from_payload (f : Faults) (now : Nat) (newId : ObjectId)
    (store : List Competition) (user : AuthUser) (body : CompetitionBody) (doc : Competition)
    (h : (routerPost f now newId store user body).response.data = some doc) :
    (routerPost f now newId store user body).response.status = 201 ∧
    doc ∈ (routerPost f now newId store user body).store ∧
    doc.status = body.status.getD "upcoming" ∧
    (body.status = none → doc.status = "upcoming") ∧
    (∀ s, body.status = some s → doc.status = s ∧ s ∈ statusEnum) := by
  rcases post_outcome f now newId store user body with ⟨hv, ho⟩ | ho
  · rw [ho] at h ⊢
    simp only [Option.some.injEq] at h
    subst h
    refine ⟨rfl, by simp, rfl, ?_, ?_⟩
    · intro hs
      simp [newCompetition, hs]
    · intro s hs
      refine ⟨by simp [newCompetition, hs], ?_⟩
      simp only [createValidators, hs, onPath, Bool.and_eq_true] at hv
      simpa using hv.2
  · rw [ho] at h
    simp [serverError] at h

/-- C13 amended, worked: without a status in the payload the competition starts `upcoming`. -/
theorem created_status_from_payload_witness :
    (routerPost noFaults 9000 c4 [] ⟨u2, "member"⟩ backwardsBody).response.data
      = some (newCompetition 9000 c4 { backwardsBody with creator := some u2 }) ∧
    (routerPost noFaults 9000 c4 [] ⟨u2, "member"⟩ backwardsBody).response.status = 201 ∧
    (newCompetition 9000 c4 { backwardsBody with creator := some u2 }).status = "upcoming" :=
  have h := created_status_from_payload noFaults 9000 c4 [] ⟨u2, "member"⟩ backwardsBody
    (newCompetition 9000 c4 { backwardsBody with creator := some u2 }) rfl
  ⟨rfl, h.1, h.2.2.2.1 rfl⟩

/-- C14, refuted as stated: the payload with `startDate` 2025-01-10 and
`endDate` 2025-01-05 is answered 201 and persisted with those dates. -/
theorem backwards_dates_created :
    (routerPost noFaults 9000 c4 [] ⟨u2, "member"⟩ backwardsBody).response.status = 201 ∧
    (routerPost noFaults 9000 c4 [] ⟨u2, "member"⟩ backwardsBody).store.map
        (fun c => (c.startDate, c.endDate)) = [(1736467200000, 1736035200000)] ∧
    ¬ (∀ c ∈ (routerPost noFaults 9000 c4 [] ⟨u2, "member"⟩ backwardsBody).store,
        c.startDate < c.endDate) := by
  refine ⟨rfl, rfl, ?_⟩
  intro h
  have := h (newCompetition 9000 c4 { backwardsBody with creator := some u2 })
    (List.mem_singleton.2 rfl)
  revert this
  decide

/-- C14, amended: create does not compare the dates.  Whether a payload
passes the validators does not depend on its dates, as long as both are
present; a payload that passes them (the write completing under a new `_id`)
is answered 201 and persisted with its `startDate` and `endDate` in whatever
order they are; every other request is answered 500 `Server error` with
nothing persisted, and none is answered 400. -/
theorem create_ignores_date_order (f : Faults) (now : Nat) (newId : ObjectId)
    (store : List Competition) (user : AuthUser) (body : CompetitionBody) (sd ed : Int)
    (hwrite : f.write = none)
    (hvalid : createValidators { body with creator := some user.id } = true)
    (hfresh : ∀ c ∈ store, c.id ≠ newId)
    (hsd : body.startDate = some sd) (hed : body.endDate = some ed) :
    (∀ sd' ed' : Int,
      createValidators { body with creator := some user.id, startDate := some sd',
                                   endDate := some ed' } = true) ∧
    (∃ doc, (routerPost f now newId store user body).response = ⟨201, true, none, some doc⟩ ∧
      (routerPost f now newId store user body).store = store ++ [doc] ∧
      doc.startDate = sd ∧ doc.endDate = ed) ∧
    (∀ (f' : Faults) (body' : CompetitionBody),
      (routerPost f' now newId store user body').response.status = 201 ∨
      ((routerPost f' now newId store user body').response = ⟨500, false, some "Server error", none⟩ ∧
       (routerPost f' now newId store user body').store = store)) := by
  refine ⟨?_, ?_, ?_⟩
  · intro sd' ed'
    simp only [createValidators, hsd, hed, Option.isSome_some, Bool.and_true] at hvalid ⊢
    exact hvalid
  · refine ⟨newCompetition now newId { body with creator := some user.id }, ?_, ?_, ?_, ?_⟩
    · simp only [routerPost, competition_create_of_valid f now newId store _ hwrite hvalid hfresh]
    · simp only [routerPost, competition_create_of_valid f now newId store _ hwrite hvalid hfresh]
    · simp [newCompetition, hsd]
    · simp [newCompetition, hed]
  · intro f' body'
    rcases post_outcome f' now newId store user body' with ⟨_, h⟩ | h
    · left; rw [h]
    · right; rw [h]; exact ⟨rfl, rfl⟩

/-- C14 amended, worked: the payload of the scenario, dates in the wrong order. -/
theorem create_ignores_date_order_witness :
    ∃ doc, (routerPost noFaults 9000 c4 [] ⟨u2, "member"⟩ backwardsBody).response
        = ⟨201, true, none, some doc⟩ ∧
      doc.startDate = 1736467200000 ∧ doc.endDate = 1736035200000 :=
  match (create_ignores_date_order noFaults 9000 c4 [] ⟨u2, "member"⟩ backwardsBody
      1736467200000 1736035200000 rfl rfl (fun _ h => nomatch h) rfl rfl).2.1 with
  | ⟨doc, h, _, hs, he⟩ => ⟨doc, h, hs, he⟩

/-! ## Delete and list (C15, C16) -/

/-- With unique ids, removing the first document of an id removes the id. -/
lemma removeFirst_eq_filter (id : ObjectId) (store : List Competition)
    (hnodup : (store.map (fun c => c.id)).Nodup) :
    removeFirst (fun c => c.id == id) store = store.filter (fun c => c.id != id) := by
  induction store with
  | nil => rfl
  | cons a l ih =>
    simp only [List.map_cons, List.nodup_cons] at hnodup
    obtain ⟨ha, hl⟩ := hnodup
    by_cases h : a.id = id
    · have hrest : l.filter (fun c => c.id != id) = l := by
        rw [List.filter_eq_self]
        intro x hx
        have : x.id ≠ id := by
          intro hxid
          apply ha
          rw [h, ← hxid]
          exact List.mem_map_of_mem _ hx
        simpa using this
      simp [removeFirst, h, hrest]
    · simp [removeFirst, h, ih hl]

/-- With unique ids, the lookup of a stored document's id finds that document. -/
lemma find_of_mem_nodup (id : ObjectId) (c : Competition) (store : List Competition)
    (hmem : c ∈ store) (hid : c.id = id) (hnodup : (store.map (fun x => x.id)).Nodup) :
    store.find? (fun x => x.id == id) = some c := by
  induction store with
  | nil => simp at hmem
  | cons a l ih =>
    simp only [List.map_cons, List.nodup_cons] at hnodup
    obtain ⟨ha, hl⟩ := hnodup
    by_cases h : a.id = id
    · have hca : c = a := by
        rcases List.mem_cons.1 hmem with h1 | h1
        · exact h1
        · exfalso
          apply ha
          rw [h, ← hid]
          exact List.mem_map_of_mem _ h1
      simp [List.find?, h, hca]
    · have hcl : c ∈ l := by
        rcases List.mem_cons.1 hmem with h1 | h1
        · exact absurd (h1 ▸ hid) h
        · exact h1
      have hb : (a.id == id) = false := by simpa using h
      simp only [List.find?, hb, ih hcl hl]

/-- C15, refuted as stated: no stored competition has the id `c9` (two
characters, not an `ObjectId`), yet the delete is answered 500 `Server error`,
not 404: the lookup throws on the cast. -/
theorem delete_malformed_id_is_500 :
    (∀ c ∈ [demoCompetition], c.id ≠ "c9") ∧
    (routerDelete noFaults [demoCompetition] "c9" ⟨u5, "member"⟩).response =
      ⟨500, false, some "Server error", none⟩ ∧
    (routerDelete noFaults [demoCompetition] "c9" ⟨u5, "member"⟩).response.status ≠ 404 := by
  refine ⟨by decide, rfl, by decide⟩

/-- C15, amended: `DELETE /competitions/:id`, the persistence calls
completing.  For an id that is an `ObjectId`: when no stored competition has
it, the answer is 404 `Competition not found` whoever the caller is, and the
store is unchanged; when the competition exists and the caller is its creator
or an admin, the answer is 200 and afterwards no stored competition has that
id while every other competition is still stored, unchanged and in the same
order (ids being unique in the collection).  For an id that is not an
`ObjectId` the lookup throws and the answer is 500 `Server error`, the store
unchanged, whatever the faults. -/
theorem delete_not_found_or_removed (f : Faults) (store : List Competition) (id : ObjectId)
    (user : AuthUser) (hread : f.read = none) :
    (isObjectId id = true → (∀ c ∈ store, c.id ≠ id) →
      (routerDelete f store id user).response = ⟨404, false, some "Competition not found", none⟩ ∧
      (routerDelete f store id user).store = store) ∧
    (∀ f' : Faults, isObjectId id = false →
      (routerDelete f' store id user).response = ⟨500, false, some "Server error", none⟩ ∧
      (routerDelete f' store id user).store = store ∧
      (routerDelete f' store id user).calls = [DbCall.findById]) ∧
    (∀ c, isObjectId id = true → c ∈ store → c.id = id →
      (user.id = c.creator ∨ user.role = "admin") → f.remove = none →
      (store.map (fun x => x.id)).Nodup →
        (routerDelete f store id user).response =
          ⟨200, true, some "Competition deleted successfully", none⟩ ∧
        (∀ x ∈ (routerDelete f store id user).store, x.id ≠ id) ∧
        (routerDelete f store id user).store = store.filter (fun x => x.id != id) ∧
        (∀ x, x.id ≠ id → (x ∈ (routerDelete f store id user).store ↔ x ∈ store))) := by
  refine ⟨?_, ?_, ?_⟩
  · intro hid hnone
    have hfind : store.find? (fun c => c.id == id) = none := by
      rw [List.find?_eq_none]
      intro x hx
      simpa using hnone x hx
    simp [routerDelete, Competition.findById, hid, hread, hfind, notFound]
  · intro f' hid
    simp [routerDelete, Competition.findById, hid, serverError]
  · intro c hid hmem hcid hauth hremove hnodup
    have hfind := find_of_mem_nodup id c store hmem hcid hnodup
    have hna := authorized_of_owner_or_admin c user hauth
    have hlookup : Competition.findById f store id = .ok (some c) := by
      simp [Competition.findById, hid, hread, hfind]
    have hstore : (routerDelete f store id user).store = store.filter (fun x => x.id != id) := by
      simp only [routerDelete, hlookup, hna, Competition.findByIdAndDelete, hremove,
        Bool.false_eq_true, ↓reduceIte]
      exact removeFirst_eq_filter id store hnodup
    refine ⟨?_, ?_, hstore, ?_⟩
    · simp only [routerDelete, hlookup, hna, Competition.findByIdAndDelete, hremove,
        Bool.false_eq_true, ↓reduceIte]
    · intro x hx
      rw [hstore] at hx
      simpa using (List.mem_filter.1 hx).2
    · intro x hx
      rw [hstore, List.mem_filter]
      simp [hx]

/-- C15 amended, worked: `u1` deletes `c1` from a store of two; a well-formed
id that no competition has is a 404. -/
theorem delete_not_found_or_removed_witness :
    (routerDelete noFaults [demoCompetition, completedCompetition] c4 ⟨u5, "member"⟩).response
      = ⟨404, false, some "Competition not found", none⟩ ∧
    (routerDelete noFaults [demoCompetition, completedCompetition] c1 ⟨u1, "member"⟩).response
      = ⟨200, true, some "Competition deleted successfully", none⟩ ∧
    (routerDelete noFaults [demoCompetition, completedCompetition] c1 ⟨u1, "member"⟩).store
      = [demoCompetition, completedCompetition].filter (fun x => x.id != c1) :=
  have h404 := (delete_not_found_or_removed noFaults [demoCompetition, completedCompetition] c4
    ⟨u5, "member"⟩ rfl).1 (by decide) (by decide)
  have h200 := (delete_not_found_or_removed noFaults [demoCompetition, completedCompetition] c1
    ⟨u1, "member"⟩ rfl).2.2 demoCompetition (by decide) (by decide) rfl (Or.inl rfl) rfl
    (by decide)
  ⟨h404.1, h200.1, h200.2.2.1⟩

/-- The sort is stable: the documents of one `createdAt` come out in the
order they went in. -/
lemma sortNewerFirst_ties (store : List Competition) (t : Int) :
    (sortNewerFirst store).filter (fun c => c.createdAt == t)
      = store.filter (fun c => c.createdAt == t) := by
  have hpair : (store.filter (fun c => c.createdAt == t)).Pairwise newerFirst := by
    rw [List.pairwise_iff_forall_sublist]
    intro a b hab
    have ha : a ∈ store.filter (fun c => c.createdAt == t) :=
      hab.subset (List.mem_cons_self a [b])
    have hb : b ∈ store.filter (fun c => c.createdAt == t) :=
      hab.subset (List.mem_cons_of_mem a (List.mem_singleton.2 rfl))
    have ha' : a.createdAt = t := by simpa using (List.mem_filter.1 ha).2
    have hb' : b.createdAt = t := by simpa using (List.mem_filter.1 hb).2
    show b.createdAt ≤ a.createdAt
    rw [ha', hb']
  have hsub : List.Sublist (store.filter (fun c => c.createdAt == t)) (sortNewerFirst store) :=
    List.sublist_insertionSort hpair (List.filter_sublist store)
  have hsub' : List.Sublist (store.filter (fun c => c.createdAt == t))
      ((sortNewerFirst store).filter (fun c => c.createdAt == t)) := by
    have := hsub.filter (fun c => c.createdAt == t)
    rwa [List.filter_filter, show (fun c : Competition => (c.createdAt == t && c.createdAt == t))
      = (fun c => c.createdAt == t) from funext (fun c => Bool.and_self _)] at this
  have hlen : (store.filter (fun c => c.createdAt == t)).length
      = ((sortNewerFirst store).filter (fun c => c.createdAt == t)).length :=
    ((List.perm_insertionSort newerFirst store).filter _).length_eq.symm
  exact (hsub'.eq_of_length hlen).symm

/-- C16: with the lookup completing, `GET /competitions` answers 200 with
every stored competition exactly once (the listed documents are a permutation
of the store), each with its creator populated, ordered by `createdAt`
descending; competitions with equal `createdAt` keep insertion order (for
every instant, the listed documents of that instant are the stored ones in
stored order, and a pair inserted in one order at one instant is listed in
that order); `count` is the length of `data`, and the store is unchanged. -/
theorem list_newer_first (f : Faults) (users : List User) (store : List Competition)
    (hread : f.read = none) :
    ∃ data, (routerGet f users store).response = ⟨200, true, none, some data.length, some data⟩ ∧
      (∀ p ∈ data, p = populateCreator users p.doc) ∧
      (data.map (fun p => p.doc)).Perm store ∧
      (data.map (fun p => p.doc)).Pairwise (fun a b => b.createdAt ≤ a.createdAt) ∧
      (∀ t : Int, (data.map (fun p => p.doc)).filter (fun c => c.createdAt == t)
        = store.filter (fun c => c.createdAt == t)) ∧
      (∀ a b, List.Sublist [a, b] store → a.createdAt = b.createdAt →
        List.Sublist [a, b] (data.map (fun p => p.doc))) ∧
      (routerGet f users store).store = store := by
  have hdoc : ((sortNewerFirst store).map (populateCreator users)).map (fun p => p.doc)
      = sortNewerFirst store := by
    simp [List.map_map, Function.comp_def, populateCreator]
  refine ⟨(sortNewerFirst store).map (populateCreator users), ?_, ?_, ?_, ?_, ?_, ?_, ?_⟩
  · simp [routerGet, Competition.find, hread]
  · intro p hp
    obtain ⟨c, _, hc⟩ := List.mem_map.1 hp
    rw [← hc]
    rfl
  · rw [hdoc]; exact List.perm_insertionSort newerFirst store
  · rw [hdoc]; exact List.sorted_insertionSort newerFirst store
  · intro t
    rw [hdoc]
    exact sortNewerFirst_ties store t
  · intro a b hab heq
    rw [hdoc]
    exact List.pair_sublist_insertionSort (show newerFirst a b from le_of_eq heq.symm) hab
  · simp [routerGet, Competition.find, hread]

/-- C16, worked: `c1` is the oldest; `c2` and `c3` were created at the same
instant and inserted in that order. -/
theorem list_newer_first_witness :
    ∃ data, (routerGet noFaults [bob]
        [demoCompetition, completedCompetition, twinCompetition]).response
        = ⟨200, true, none, some data.length, some data⟩ ∧
      (data.map (fun p => p.doc)).filter (fun c => c.createdAt == 700)
        = [completedCompetition, twinCompetition] :=
  match list_newer_first noFaults [bob]
      [demoCompetition, completedCompetition, twinCompetition] rfl with
  | ⟨data, h, _, _, _, hties, _, _⟩ => ⟨data, h, (hties 700).trans (by decide)⟩

/-! ## `GET /me`, bootstrap and error responses (C17 to C20) -/

/-- C17, the code at the failing input: a request to `GET /me` that carries
no token is answered 200 with the fixed sample user, and so is every other
request, whatever token it carries. -/
theorem me_answers_sample_user :
    (routerGetMe ⟨none⟩).status = 200 ∧
    (routerGetMe ⟨none⟩).user = some ⟨"sample-id", "sampleuser", "sample@example.com"⟩ ∧
    (∀ req : MeRequest, routerGetMe req =
      ⟨200, true, some "Get user endpoint is working",
        some ⟨"sample-id", "sampleuser", "sample@example.com"⟩⟩) :=
  ⟨rfl, rfl, fun _ => rfl⟩

/-- After a bootstrap whose environment load completed, both variables are set. -/
lemma bootstrap_sets (dotenv : Env → Option Env) (env e : Env) (hload : dotenv env = some e) :
    truthy (bootstrap dotenv env).JWT_SECRET = true ∧
    truthy (bootstrap dotenv env).JWT_EXPIRE = true := by
  have hfb : truthy (some fallbackSecret) = true := by decide
  have h30 : truthy (some "30d") = true := by decide
  simp only [bootstrap, hload]
  constructor
  · by_cases h : truthy e.JWT_SECRET = true
    · simp [h]
    · simp [h, hfb]
  · by_cases h : truthy e.JWT_EXPIRE = true
    · simp [h]
    · simp [h, h30]

/-- C18, refuted as stated: started without a secret, the bootstrap sets
`JWT_SECRET` to the hard-coded fallback, and a token is then minted and signed
with that fallback. -/
theorem fallback_secret_signs_tokens :
    (bootstrap some bareEnv).JWT_SECRET = some fallbackSecret ∧
    ∃ tok, generateToken demoLib (bootstrap some bareEnv) 5000 u9 = .ok tok ∧
      tok.signature = demoLib.hmac fallbackSecret tok.claims :=
  ⟨rfl, _, rfl, rfl⟩

/-- C18, amended: when `JWT_SECRET` is absent or empty once the environment
is loaded, the bootstrap does not fail: it sets `JWT_SECRET` to the
hard-coded fallback secret, and `generateToken` then returns tokens signed
with that secret, which was not supplied externally. -/
theorem bootstrap_substitutes_fallback (dotenv : Env → Option Env) (env e : Env)
    (hload : dotenv env = some e) (habsent : truthy e.JWT_SECRET = false) :
    (bootstrap dotenv env).JWT_SECRET = some fallbackSecret ∧
    (∀ (L : Lib Claims) (now : Nat) (userId : ObjectId) (sp : Int),
      L.span ((bootstrap dotenv env).JWT_EXPIRE.getD "30d") = some sp →
      ∃ tok, generateToken L (bootstrap dotenv env) now userId = .ok tok ∧
        tok.claims.id = userId ∧ tok.signature = L.hmac fallbackSecret tok.claims) := by
  have hsecret : (bootstrap dotenv env).JWT_SECRET = some fallbackSecret := by
    simp [bootstrap, hload, habsent]
  refine ⟨hsecret, ?_⟩
  intro L now userId sp hspan
  obtain ⟨hs, he⟩ := bootstrap_sets dotenv env e hload
  have hexp : (if truthy (bootstrap dotenv env).JWT_EXPIRE then
      (bootstrap dotenv env).JWT_EXPIRE.getD "" else "30d")
      = (bootstrap dotenv env).JWT_EXPIRE.getD "30d" := by
    rw [if_pos he]
    cases hx : (bootstrap dotenv env).JWT_EXPIRE with
    | none => rw [hx] at he; exact absurd he (by decide)
    | some v => rfl
  have hgen := generateToken_of_configured L (bootstrap dotenv env) now userId sp hs
    (by rw [hexp]; exact hspan)
  refine ⟨_, hgen, rfl, ?_⟩
  simp [hsecret]

/-- C18 amended, worked: the environment holds an empty `JWT_SECRET`. -/
theorem bootstrap_substitutes_fallback_witness :
    (bootstrap some ⟨some "", none, none⟩).JWT_SECRET = some fallbackSecret :=
  (bootstrap_substitutes_fallback some ⟨some "", none, none⟩ ⟨some "", none, none⟩ rfl
    (by decide)).1

/-- Every 500 of register carries the message of what was thrown. -/
lemma register_500_has_error (L : Lib Claims) (env : Env) (f : Faults) (now : Nat)
    (newId : ObjectId) (store : List User) (body : RegisterBody)
    (h : (routerPostRegister L env f now newId store body).response.status = 500) :
    ∃ msg, (routerPostRegister L env f now newId store body).response.error = some msg := by
  by_cases hv : registerValidation L body = []
  · rw [register_valid L env f now newId store body hv] at h ⊢
    cases hfind : User.findOne f store
        (fun u => u.email == body.email || u.username == body.username) with
    | error e => exact ⟨e.message, rfl⟩
    | ok o =>
      cases o with
      | some u => simp [hfind, userExists] at h
      | none =>
        cases hcreate :
            User.create L f newId store body.username body.email body.password with
        | error e => exact ⟨e.message, rfl⟩
        | ok pr =>
          obtain ⟨user, store1⟩ := pr
          cases htok : generateToken L env now user.id with
          | error msg =>
            simp only [htok]
            cases hdel : User.findByIdAndDelete f store1 user.id with
            | error e => exact ⟨e.message, rfl⟩
            | ok store2 => exact ⟨msg, rfl⟩
          | ok tok =>
            simp [hfind, hcreate, htok, success] at h
  · rw [register_invalid L env f now newId store body hv] at h
    simp [validationFailed] at h

/-- The two 500 bodies of login. -/
lemma login_500 (L : Lib Claims) (env : Env) (f : Faults) (now : Nat) (store : List User)
    (body : LoginBody)
    (h : (routerPostLogin L env f now store body).response.status = 500) :
    (routerPostLogin L env f now store body).response =
        ⟨500, false, some "Server error during login", none, none, none, none, none⟩ ∨
    ∃ msg, (routerPostLogin L env f now store body).response =
        ⟨500, false, some "Authentication failed", none, some msg, none, none, none⟩ := by
  by_cases hv : loginValidation L body = []
  · rw [login_valid L env f now store body hv] at h ⊢
    cases hfind : User.findOne f store (fun u => u.email == body.email) with
    | error e => left; rfl
    | ok o =>
      cases o with
      | none => simp [hfind, invalidCredentials] at h
      | some user =>
        simp only [hfind] at h
        by_cases hm : User.matchPassword L user (body.password.getD "") = true
        · simp only [hm, Bool.not_true, Bool.false_eq_true, ↓reduceIte] at h ⊢
          cases htok : generateToken L env now user.id with
          | error msg => right; exact ⟨msg, rfl⟩
          | ok tok => simp [htok, success] at h
        · simp [hm, invalidCredentials] at h
  · have hne : (loginValidation L body).isEmpty = false := by
      cases hl : loginValidation L body with
      | nil => exact absurd hl hv
      | cons a l => rfl
    simp [routerPostLogin, hne, validationFailed] at h

/-- C19, refuted as stated: in production mode the global error handler
answers a thrown network error with its message, register answers a failed
lookup with the message of the error, and login answers a failed token
minting with the message of the error. -/
theorem production_500_carries_message :
    errorHandler prodEnv (ofDbError connectionRefused (some "at connect (net.js:1)")) =
      ⟨500, false, "connect ECONNREFUSED 10.0.0.5:27017", none, none⟩ ∧
    (routerPostRegister demoLib prodEnv ⟨some connectionRefused, none, none⟩ 5000 u9 []
        aliceBody).response =
      ⟨500, false, some "Server error during registration", none,
        some "connect ECONNREFUSED 10.0.0.5:27017", none, none, none⟩ ∧
    (routerPostLogin demoLib ⟨none, none, some "production"⟩ noFaults 5000 [bob]
        ⟨"bob@x.com", some "hunter22"⟩).response =
      ⟨500, false, some "Authentication failed", none,
        some "JWT_SECRET is not defined in environment variables", none, none, none⟩ := by
  refine ⟨?_, ?_, ?_⟩ <;> rfl

/-- C19, amended: in production mode the global error handler never sends the
stack (a stack is sent only when `NODE_ENV` is `development`), and login's
outer catch answers the fixed `Server error during login`.  The message of the
underlying error is sent all the same: by the global handler in its last
branch (`message`), by every 500 of register (`error`) and by login's
token-failure branch (`error`); register and login do not read `NODE_ENV`. -/
theorem production_hides_stack_only (env : Env) (hprod : env.NODE_ENV = some "production") :
    (∀ err, (errorHandler env err).stack = none) ∧
    (∀ (env' : Env) err, (errorHandler env' err).stack ≠ none →
      env'.NODE_ENV = some "development") ∧
    (∀ err : JsError, err.name ≠ "ValidationError" → err.name ≠ "JsonWebTokenError" →
      err.code ≠ some (.num 11000) → err.code ≠ some (.str "MODULE_NOT_FOUND") →
      err.status = none → err.message ≠ "" →
      errorHandler env err = ⟨500, false, err.message, none, none⟩) ∧
    (∀ (L : Lib Claims) (f : Faults) (now : Nat) (newId : ObjectId) (store : List User)
        (body : RegisterBody),
      (routerPostRegister L env f now newId store body).response.status = 500 →
      ∃ msg, (routerPostRegister L env f now newId store body).response.error = some msg) ∧
    (∀ (L : Lib Claims) (f : Faults) (now : Nat) (newId : ObjectId) (store : List User)
        (body : RegisterBody) (e : DbError),
      registerValidation L body = [] → f.read = some e →
      (routerPostRegister L env f now newId store body).response =
        ⟨500, false, some "Server error during registration", none, some e.message, none,
          none, none⟩) ∧
    (∀ (L : Lib Claims) (f : Faults) (now : Nat) (store : List User) (body : LoginBody),
      (routerPostLogin L env f now store body).response.status = 500 →
      (routerPostLogin L env f now store body).response =
          ⟨500, false, some "Server error during login", none, none, none, none, none⟩ ∨
      ∃ msg, (routerPostLogin L env f now store body).response =
          ⟨500, false, some "Authentication failed", none, some msg, none, none, none⟩) ∧
    (∀ (L : Lib Claims) (mode : Option String) (f : Faults) (now : Nat) (newId : ObjectId)
        (store : List User) (body : RegisterBody) (lbody : LoginBody),
      routerPostRegister L { env with NODE_ENV := mode } f now newId store body =
        routerPostRegister L env f now newId store body ∧
      routerPostLogin L { env with NODE_ENV := mode } f now store lbody =
        routerPostLogin L env f now store lbody) := by
  refine ⟨?_, ?_, ?_, ?_, ?_, ?_, ?_⟩
  · intro err
    unfold errorHandler
    split_ifs <;> simp_all
  · intro env' err hstack
    unfold errorHandler at hstack
    split_ifs at hstack with h1 h2 h3 h4 h5 <;> simp_all
  · intro err h1 h2 h3 h4 h5 h6
    simp [errorHandler, h1, h2, h3, h4, h5, h6, hprod]
  · intro L f now newId store body h
    exact register_500_has_error L env f now newId store body h
  · intro L f now newId store body e hv hread
    rw [register_valid L env f now newId store body hv]
    simp [User.findOne, hread, registerServerError]
  · intro L f now store body h
    exact login_500 L env f now store body h
  · intro L mode f now newId store body lbody
    exact ⟨rfl, rfl⟩

/-- C19 amended, worked: the production environment of the examples. -/
theorem production_hides_stack_only_witness :
    (errorHandler prodEnv (ofDbError connectionRefused (some "at connect (net.js:1)"))).stack
      = none ∧
    errorHandler prodEnv (ofDbError connectionRefused (some "at connect (net.js:1)")) =
      ⟨500, false, "connect ECONNREFUSED 10.0.0.5:27017", none, none⟩ :=
  have h := production_hides_stack_only prodEnv rfl
  ⟨h.1 _, h.2.2.1 (ofDbError connectionRefused (some "at connect (net.js:1)")) (by decide)
    (by decide) (by decide) (by decide) rfl (by decide)⟩

/-- C20, the code at the failing input: `alice` registers on the empty store
and the insert is rejected with the duplicate-key error (code 11000).  The
handler's own `catch` answers 500 `Server error during registration` with the
message of the error; the global error handler, which would answer 400 for
that error, is not reached. -/
theorem duplicate_key_answered_500 :
    duplicateKey.code = some 11000 ∧
    routerPostRegister demoLib demoEnv ⟨none, some duplicateKey, none⟩ 5000 u9 [] aliceBody =
      ⟨⟨500, false, some "Server error during registration", none,
          some "E11000 duplicate key error", none, none, none⟩, [], [.findOne, .create]⟩ ∧
    errorHandler demoEnv (ofDbError duplicateKey none) =
      ⟨400, false, "Duplicate field value entered", none, none⟩ := by
  refine ⟨?_, ?_, ?_⟩ <;> rfl

/-! ## Bootstrap guarantee and ownership under update (C22, C23) -/

/-- C22: provided loading the environment does not throw, after the bootstrap
block `JWT_SECRET` is a non-empty string (the loaded one when that was set)
and `JWT_EXPIRE` is set (the loaded one, or `30d` when that was absent or
empty), for every initial environment.  Hence, under the bootstrapped
environment, `generateToken` goes straight to `jwt.sign` and never throws
`JWT_SECRET is not defined in environment variables`. -/
theorem bootstrap_configures_jwt (dotenv : Env → Option Env) (env e : Env)
    (hload : dotenv env = some e) :
    (∃ secret, (bootstrap dotenv env).JWT_SECRET = some secret ∧ secret ≠ "" ∧
      (truthy e.JWT_SECRET = true → e.JWT_SECRET = some secret)) ∧
    (∃ expire, (bootstrap dotenv env).JWT_EXPIRE = some expire ∧ expire ≠ "" ∧
      (truthy e.JWT_EXPIRE = true → e.JWT_EXPIRE = some expire) ∧
      (truthy e.JWT_EXPIRE = false → expire = "30d")) ∧
    (∀ (L : Lib Claims) (now : Nat) (userId : ObjectId),
      generateToken L (bootstrap dotenv env) now userId =
        jwtSign L userId now ((bootstrap dotenv env).JWT_SECRET.getD "")
          ((bootstrap dotenv env).JWT_EXPIRE.getD "") now ∧
      generateToken L (bootstrap dotenv env) now userId ≠
        .error "JWT_SECRET is not defined in environment variables") := by
  obtain ⟨hs, he⟩ := bootstrap_sets dotenv env e hload
  have hgen : ∀ (L : Lib Claims) (now : Nat) (userId : ObjectId),
      generateToken L (bootstrap dotenv env) now userId =
        jwtSign L userId now ((bootstrap dotenv env).JWT_SECRET.getD "")
          ((bootstrap dotenv env).JWT_EXPIRE.getD "") now := by
    intro L now userId
    simp [generateToken, hs, he]
  refine ⟨?_, ?_, ?_⟩
  · cases hsec : (bootstrap dotenv env).JWT_SECRET with
    | none => rw [hsec] at hs; exact absurd hs (by decide)
    | some secret =>
      refine ⟨secret, rfl, ?_, ?_⟩
      · rw [hsec] at hs
        simpa [truthy] using hs
      · intro ht
        have : (bootstrap dotenv env).JWT_SECRET = e.JWT_SECRET := by
          simp [bootstrap, hload, ht]
        rw [← this, hsec]
  · cases hexp : (bootstrap dotenv env).JWT_EXPIRE with
    | none => rw [hexp] at he; exact absurd he (by decide)
    | some expire =>
      refine ⟨expire, rfl, ?_, ?_, ?_⟩
      · rw [hexp] at he
        simpa [truthy] using he
      · intro ht
        have : (bootstrap dotenv env).JWT_EXPIRE = e.JWT_EXPIRE := by
          simp [bootstrap, hload, ht]
        rw [← this, hexp]
      · intro ht
        have : (bootstrap dotenv env).JWT_EXPIRE = some "30d" := by
          simp [bootstrap, hload, ht]
        rw [hexp] at this
        exact Option.some.inj this
  · intro L now userId
    refine ⟨hgen L now userId, ?_⟩
    rw [hgen]
    unfold jwtSign
    cases L.span ((bootstrap dotenv env).JWT_EXPIRE.getD "") with
    | none =>
      intro h
      have hmsg : badExpiresIn = "JWT_SECRET is not defined in environment variables" :=
        Except.error.inj h
      exact absurd hmsg (by decide)
    | some sp => intro h; exact Except.noConfusion h

/-- C22, worked: the process is started with an empty environment. -/
theorem bootstrap_configures_jwt_witness :
    (bootstrap some bareEnv).JWT_SECRET = some fallbackSecret ∧
    (bootstrap some bareEnv).JWT_EXPIRE = some "30d" ∧
    generateToken demoLib (bootstrap some bareEnv) 5000 u9 ≠
      .error "JWT_SECRET is not defined in environment variables" :=
  ⟨rfl, rfl, ((bootstrap_configures_jwt some bareEnv bareEnv rfl).2.2 demoLib 5000 u9).2⟩

/-- An update keeps every document of another id as it is. -/
lemma updateFirst_others (id : ObjectId) (b : CompetitionBody) (store : List Competition) :
    (updateFirst id b store).filter (fun x => x.id != id) = store.filter (fun x => x.id != id) := by
  induction store with
  | nil => rfl
  | cons a l ih =>
    by_cases h : (a.id == id) = true
    · have h1 : ((applyUpdate a b).id != id) = false := by
        have : ((applyUpdate a b).id == id) = true := h
        simp [bne, this]
      have h2 : (a.id != id) = false := by simp [bne, h]
      simp only [updateFirst, h, ↓reduceIte, List.filter_cons, h1, h2, Bool.false_eq_true]
    · have hf : (a.id == id) = false := by simpa using h
      have h2 : (a.id != id) = true := by simp [bne, hf]
      simp only [updateFirst, hf, Bool.false_eq_true, ↓reduceIte, List.filter_cons, h2, ih]

/-- An update keeps the ids of the collection, in order. -/
lemma updateFirst_ids (id : ObjectId) (b : CompetitionBody) (store : List Competition) :
    (updateFirst id b store).map (fun x => x.id) = store.map (fun x => x.id) := by
  induction store with
  | nil => rfl
  | cons a l ih =>
    by_cases h : (a.id == id) = true
    · simp [updateFirst, h, applyUpdate]
    · have hf : (a.id == id) = false := by simpa using h
      simp [updateFirst, hf, ih]

/-- A 200 of the update handler past the ownership test: the write completed
and the patch passed the validators. -/
lemma put_200 (f : Faults) (store : List Competition) (id : ObjectId) (c : Competition)
    (user : AuthUser) (body : CompetitionBody)
    (hfind : Competition.findById f store id = .ok (some c))
    (h200 : (routerPut f store id user body).response.status = 200) :
    routerPut f store id user body =
      ⟨⟨200, true, none, some (applyUpdate c body)⟩, updateFirst id body store,
        [.findById, .findByIdAndUpdate]⟩ := by
  have hf := (findById_ok hfind).2
  cases hna : notAuthorized c user with
  | true => simp [routerPut, hfind, hna] at h200
  | false =>
    cases hw : f.write with
    | some e =>
      simp [routerPut, hfind, hna, Competition.findByIdAndUpdate, hw, serverError] at h200
    | none =>
      rw [put_authorized f store id c user body hfind hna hw] at h200 ⊢
      by_cases hv : updateValidators body = true
      · rw [if_pos hv]
      · rw [if_neg hv] at h200
        simp [serverError] at h200

/-- C23, refuted as stated: the owner `u1` sends a patch that carries
`creator: 'u2'`; the update is answered 200 and the stored competition now
has creator `u2`. -/
theorem creator_replaced_by_patch :
    demoCompetition.creator = u1 ∧
    (routerPut noFaults [demoCompetition] c1 ⟨u1, "member"⟩
        { emptyBody with creator := some u2 }).response.status = 200 ∧
    (routerPut noFaults [demoCompetition] c1 ⟨u1, "member"⟩
        { emptyBody with creator := some u2 }).store =
      [{ demoCompetition with creator := u2 }] := by
  refine ⟨?_, ?_, ?_⟩ <;> rfl

/-- C23, amended: for an existing competition `c` and every patch, after a
successful `PUT /competitions/:id` the stored competition has the creator of
the patch when the patch carries one, and the creator of `c` when it carries
none; no competition of another id is changed, and the collection keeps its
ids in order. -/
theorem update_creator_from_patch (f : Faults) (store : List Competition) (id : ObjectId)
    (c : Competition) (user : AuthUser) (body : CompetitionBody)
    (hfind : Competition.findById f store id = .ok (some c))
    (h200 : (routerPut f store id user body).response.status = 200) :
    (user.id = c.creator ∨ user.role = "admin") ∧
    (routerPut f store id user body).store.find? (fun x => x.id == id)
      = some (applyUpdate c body) ∧
    (body.creator = none → (applyUpdate c body).creator = c.creator) ∧
    (∀ u, body.creator = some u → (applyUpdate c body).creator = u) ∧
    (routerPut f store id user body).store.filter (fun x => x.id != id)
      = store.filter (fun x => x.id != id) ∧
    (routerPut f store id user body).store.map (fun x => x.id) = store.map (fun x => x.id) := by
  have hput := put_200 f store id c user body hfind h200
  have hauth : user.id = c.creator ∨ user.role = "admin" := by
    by_contra hno
    have hne : user.id ≠ c.creator ∧ user.role ≠ "admin" := by
      constructor
      · exact fun h => hno (Or.inl h)
      · exact fun h => hno (Or.inr h)
    have hna := (notAuthorized_iff c user).2 hne
    simp [routerPut, hfind, hna] at h200
  rw [hput]
  refine ⟨hauth, find_updateFirst id body c store (findById_ok hfind).2, ?_, ?_,
    updateFirst_others id body store, updateFirst_ids id body store⟩
  · intro hnone
    simp [applyUpdate, hnone]
  · intro u hu
    simp [applyUpdate, hu]

/-- C23 amended, worked: a patch without `creator` keeps the creator `u1`,
and the other competition of the store is untouched. -/
theorem update_creator_from_patch_witness :
    (routerPut noFaults [demoCompetition, completedCompetition] c1 ⟨u1, "member"⟩
        { emptyBody with status := some "active" }).store.find? (fun x => x.id == c1)
      = some { demoCompetition with status := "active" } ∧
    (routerPut noFaults [demoCompetition, completedCompetition] c1 ⟨u1, "member"⟩
        { emptyBody with status := some "active" }).store.filter (fun x => x.id != c1)
      = [demoCompetition, completedCompetition].filter (fun x => x.id != c1) :=
  have h := update_creator_from_patch noFaults [demoCompetition, completedCompetition] c1
    demoCompetition ⟨u1, "member"⟩ { emptyBody with status := some "active" } rfl rfl
  ⟨h.2.1, h.2.2.2.2.1⟩

/-! ## What a success response carries (C21) -/

/-- Token minting reads nothing of the library but the signature and the
timespan reader. -/
lemma generateToken_congr (L₁ L₂ : Lib Claims) (env : Env) (now : Nat) (uid : ObjectId)
    (hh : L₁.hmac = L₂.hmac) (hs : L₁.span = L₂.span) :
    generateToken L₁ env now uid = generateToken L₂ env now uid := by
  simp [generateToken, jwtSign, hh, hs]

/-- A 201 of register: the identity was created and a token minted for its id. -/
lemma register_201 (L : Lib Claims) (env : Env) (f : Faults) (now : Nat) (newId : ObjectId)
    (store : List User) (body : RegisterBody)
    (h : (routerPostRegister L env f now newId store body).response.status = 201) :
    ∃ tok, generateToken L env now newId = .ok tok ∧
      routerPostRegister L env f now newId store body =
        ⟨success 201 tok ⟨newId, body.username, body.email, L.hash body.password, "member"⟩,
          store ++ [⟨newId, body.username, body.email, L.hash body.password, "member"⟩],
          [.findOne, .create]⟩ := by
  by_cases hv : registerValidation L body = []
  · rw [register_valid L env f now newId store body hv] at h ⊢
    cases hfind : User.findOne f store
        (fun u => u.email == body.email || u.username == body.username) with
    | error e => simp [hfind, registerServerError] at h
    | ok o =>
      cases o with
      | some u => simp [hfind, userExists] at h
      | none =>
        cases hcreate :
            User.create L f newId store body.username body.email body.password with
        | error e => simp [hfind, hcreate, registerServerError] at h
        | ok pr =>
          obtain ⟨user, store1⟩ := pr
          obtain ⟨hu, hs, _⟩ := create_ok hcreate
          have hid : user.id = newId := by rw [hu]
          cases htok : generateToken L env now user.id with
          | error msg =>
            simp only [hfind, hcreate, htok] at h
            cases hdel : User.findByIdAndDelete f store1 user.id <;>
              simp [hdel, registerServerError, authSetupFailed] at h
          | ok tok =>
            refine ⟨tok, by rw [← hid]; exact htok, ?_⟩
            simp only [htok, hs]
            rw [hu]
  · rw [register_invalid L env f now newId store body hv] at h
    simp [validationFailed] at h

/-- A 200 of login: the identity was found by email and a token minted for its id. -/
lemma login_200 (L : Lib Claims) (env : Env) (f : Faults) (now : Nat) (store : List User)
    (body : LoginBody)
    (h : (routerPostLogin L env f now store body).response.status = 200) :
    ∃ tok user, store.find? (fun u => u.email == body.email) = some user ∧
      generateToken L env now user.id = .ok tok ∧
      routerPostLogin L env f now store body = ⟨success 200 tok user, store, [.findOne]⟩ := by
  by_cases hv : loginValidation L body = []
  · rw [login_valid L env f now store body hv] at h ⊢
    cases hfind : User.findOne f store (fun u => u.email == body.email) with
    | error e => simp [hfind] at h
    | ok o =>
      cases o with
      | none => simp [hfind, invalidCredentials] at h
      | some user =>
        have hfound : store.find? (fun u => u.email == body.email) = some user := by
          unfold User.findOne at hfind
          cases hr : f.read with
          | some e => simp [hr] at hfind
          | none => simpa [hr] using hfind
        simp only [hfind] at h
        by_cases hm : User.matchPassword L user (body.password.getD "") = true
        · simp only [hm, Bool.not_true, Bool.false_eq_true, ↓reduceIte] at h ⊢
          cases htok : generateToken L env now user.id with
          | error msg => simp [htok] at h
          | ok tok => exact ⟨tok, user, hfound, htok, rfl⟩
        · simp [hm, invalidCredentials] at h
  · have hne : (loginValidation L body).isEmpty = false := by
      cases hl : loginValidation L body with
      | nil => exact absurd hl hv
      | cons a l => rfl
    simp [routerPostLogin, hne, validationFailed] at h

/-- C21: what a success response carries.  (1) A 201 of register and (2) a
200 of login consist of `success`, a token whose claims name only the id of
a stored identity besides the algorithm and times, and a `user` object with
exactly the fields id, username, email and role of that stored identity; all
other keys are absent.  (3, 4) Neither the submitted password nor the stored
hash reaches the response: two successful registrations that differ in the
password and in the hash function, and two successful logins that differ in
the submitted password, the comparison and the stored hash, are answered
with the same response. -/
theorem success_response_has_no_password (L : Lib Claims) (env : Env) (now : Nat) :
    (∀ (f : Faults) (newId : ObjectId) (store : List User) (body : RegisterBody),
      (routerPostRegister L env f now newId store body).response.status = 201 →
      ∃ tok user, user ∈ (routerPostRegister L env f now newId store body).store ∧
        (routerPostRegister L env f now newId store body).response =
          ⟨201, true, none, none, none, none, some tok,
            some ⟨user.id, user.username, user.email, user.role⟩⟩ ∧
        tok.claims.id = user.id ∧ tok.claims.timestamp = now ∧
        tok.signature = L.hmac (env.JWT_SECRET.getD "") tok.claims) ∧
    (∀ (f : Faults) (store : List User) (body : LoginBody),
      (routerPostLogin L env f now store body).response.status = 200 →
      ∃ tok user, user ∈ store ∧
        (routerPostLogin L env f now store body).response =
          ⟨200, true, none, none, none, none, some tok,
            some ⟨user.id, user.username, user.email, user.role⟩⟩ ∧
        tok.claims.id = user.id ∧ tok.claims.timestamp = now ∧
        tok.signature = L.hmac (env.JWT_SECRET.getD "") tok.claims) ∧
    (∀ (L' : Lib Claims) (f f' : Faults) (newId : ObjectId) (store store' : List User)
        (body body' : RegisterBody),
      L'.hmac = L.hmac → L'.span = L.span →
      body'.username = body.username → body'.email = body.email →
      (routerPostRegister L env f now newId store body).response.status = 201 →
      (routerPostRegister L' env f' now newId store' body').response.status = 201 →
      (routerPostRegister L' env f' now newId store' body').response =
        (routerPostRegister L env f now newId store body).response) ∧
    (∀ (L' : Lib Claims) (f f' : Faults) (store store' : List User) (body body' : LoginBody)
        (user user' : User),
      L'.hmac = L.hmac → L'.span = L.span →
      store.find? (fun u => u.email == body.email) = some user →
      store'.find? (fun u => u.email == body'.email) = some user' →
      user'.id = user.id → user'.username = user.username → user'.email = user.email →
      user'.role = user.role →
      (routerPostLogin L env f now store body).response.status = 200 →
      (routerPostLogin L' env f' now store' body').response.status = 200 →
      (routerPostLogin L' env f' now store' body').response =
        (routerPostLogin L env f now store body).response) := by
  refine ⟨?_, ?_, ?_, ?_⟩
  · intro f newId store body h
    obtain ⟨tok, htok, hreg⟩ := register_201 L env f now newId store body h
    obtain ⟨_, hid, _, hts, _, hsig, _⟩ := generateToken_ok htok
    rw [hreg]
    exact ⟨tok, _, by simp, rfl, hid, hts, hsig⟩
  · intro f store body h
    obtain ⟨tok, user, hfound, htok, hlog⟩ := login_200 L env f now store body h
    obtain ⟨_, hid, _, hts, _, hsig, _⟩ := generateToken_ok htok
    rw [hlog]
    exact ⟨tok, user, List.mem_of_find?_eq_some hfound, rfl, hid, hts, hsig⟩
  · intro L' f f' newId store store' body body' hh hs hun hem h h'
    obtain ⟨tok, htok, hreg⟩ := register_201 L env f now newId store body h
    obtain ⟨tok', htok', hreg'⟩ := register_201 L' env f' now newId store' body' h'
    rw [generateToken_congr L' L env now newId hh hs, htok] at htok'
    have ht : tok' = tok := (Except.ok.inj htok').symm
    rw [hreg, hreg', ht]
    simp [success, hun, hem]
  · intro L' f f' store store' body body' user user' hh hs hfound hfound' hid hun hem hro h h'
    obtain ⟨tok, u, hf, htok, hlog⟩ := login_200 L env f now store body h
    obtain ⟨tok', u', hf', htok', hlog'⟩ := login_200 L' env f' now store' body' h'
    have hu : u = user := Option.some.inj (hf.symm.trans hfound)
    have hu' : u' = user' := Option.some.inj (hf'.symm.trans hfound')
    subst hu
    subst hu'
    rw [generateToken_congr L' L env now u'.id hh hs, hid, htok] at htok'
    have ht : tok' = tok := (Except.ok.inj htok').symm
    rw [hlog, hlog', ht]
    simp [success, hid, hun, hem, hro]

/-- C21, worked: the 201 of `alice`; her password `secret1` and its hash
`h$secret1` are in the store only. -/
theorem success_response_has_no_password_witness :
    ∃ tok user, user ∈ (routerPostRegister demoLib demoEnv noFaults 5000 u9 [bob]
        aliceBody).store ∧
      (routerPostRegister demoLib demoEnv noFaults 5000 u9 [bob] aliceBody).response =
        ⟨201, true, none, none, none, none, some tok,
          some ⟨user.id, user.username, user.email, user.role⟩⟩ ∧
      tok.claims.id = user.id :=
  match (success_response_has_no_password demoLib demoEnv 5000).1 noFaults u9 [bob] aliceBody
      rfl with
  | ⟨tok, user, hmem, hresp, hid, _, _⟩ => ⟨tok, user, hmem, hresp, hid⟩

end Ex8
